import Mathlib

/-!
# PureMark classification core: shallow embedding and verification

This file embeds the deterministic classification core of the PureMark
backend (`backend/services/*.py`) in Lean 4 and proves properties of the
embedded functions.  Python strings are modelled as `String` / `List Char`;
Python dicts holding reference data are modelled as association lists in
declaration order; functions returning dicts are modelled as structures;
Python `None`-able fields become `Option`.  Regular-expression searches
(`re.search`) over the small pattern language actually used by the source
are executed by a tiny backtracking matcher with Python's priority
semantics (leftmost start, greedy repetition, left-biased alternation).

Character-level scope: the source operates on Unicode Python strings, but
all case folding and whitespace handling relevant here is ASCII; the
embedding folds case for `A`–`Z` only and treats the six ASCII whitespace
characters as whitespace.  Non-ASCII characters are conservatively treated
as word characters (as Python treats accented letters).
-/

namespace PureMark

/-! ## Character classes and low-level text utilities (helpers.py) -/

/-- ASCII whitespace, the characters matched by `\s` on the texts in scope. -/
def isPySpace (c : Char) : Bool :=
  c = ' ' || c = '\t' || c = '\n' || c = '\r' || c = '\x0b' || c = '\x0c'

/-- Word characters for `\b` boundaries: alphanumerics, underscore, and
(conservatively, matching Python on letters) every non-ASCII character. -/
def isWordChar (c : Char) : Bool :=
  c.isAlphanum || c = '_' || decide (128 ≤ c.toNat)

/-- ASCII lowercasing, the effect of Python `str.lower()` on the texts in scope. -/
def lowerChar (c : Char) : Char :=
  if 65 ≤ c.toNat && c.toNat ≤ 90 then Char.ofNat (c.toNat + 32) else c

def lowerL (l : List Char) : List Char := l.map lowerChar

/-- Python `str.strip()`: drop leading and trailing whitespace. -/
def stripL (l : List Char) : List Char :=
  (l.dropWhile isPySpace).rdropWhile isPySpace

/-- Structural helper for `collapseWs`; the flag records whether the scan is
inside a whitespace run whose replacement space was already emitted. -/
def collapseAux : Bool → List Char → List Char
  | _, [] => []
  | inRun, c :: rest =>
    if isPySpace c then
      if inRun then collapseAux true rest else ' ' :: collapseAux true rest
    else c :: collapseAux false rest

/-- Python `re.sub(r'\s+', ' ', ·)`: collapse every whitespace run to one space. -/
def collapseWs (l : List Char) : List Char := collapseAux false l

theorem collapseAux_true_eq (l : List Char) :
    collapseAux true l = collapseWs (l.dropWhile isPySpace) := by
  induction l with
  | nil => rfl
  | cons c rest ih =>
    by_cases h : isPySpace c
    · rw [List.dropWhile_cons_of_pos h]
      simpa [collapseAux, h] using ih
    · rw [List.dropWhile_cons_of_neg h]
      simp [collapseAux, h, collapseWs]

theorem collapseWs_nil : collapseWs [] = [] := rfl

theorem collapseWs_cons_of_pos {c : Char} {rest : List Char} (h : isPySpace c = true) :
    collapseWs (c :: rest) = ' ' :: collapseWs (rest.dropWhile isPySpace) := by
  show collapseAux false (c :: rest) = _
  simp [collapseAux, h, collapseAux_true_eq]

theorem collapseWs_cons_of_neg {c : Char} {rest : List Char} (h : ¬ isPySpace c = true) :
    collapseWs (c :: rest) = c :: collapseWs rest := by
  show collapseAux false (c :: rest) = _
  simp [collapseAux, h, collapseWs]

/-- Induction principle matching the run-collapsing recursion. -/
theorem collapseWs_induct (P : List Char → Prop) (nil : P [])
    (space : ∀ c rest, isPySpace c = true → P (rest.dropWhile isPySpace) → P (c :: rest))
    (nonspace : ∀ c rest, ¬ isPySpace c = true → P rest → P (c :: rest)) :
    ∀ l, P l := by
  have key : ∀ n (l : List Char), l.length ≤ n → P l := by
    intro n
    induction n with
    | zero =>
      intro l hl
      rw [Nat.le_zero, List.length_eq_zero] at hl
      exact hl ▸ nil
    | succ n ih =>
      intro l hl
      cases l with
      | nil => exact nil
      | cons c rest =>
        simp only [List.length_cons, Nat.succ_le_succ_iff] at hl
        by_cases h : isPySpace c
        · refine space c rest h (ih _ ?_)
          have := (List.dropWhile_suffix (p := isPySpace) (l := rest)).length_le
          omega
        · exact nonspace c rest h (ih rest hl)
  exact fun l => key l.length l (Nat.le_refl _)

/-- `normalize_text` (helpers.py): lowercase, strip, collapse whitespace. -/
def normalize_text (text : String) : String :=
  if text = "" then ""
  else String.mk (collapseWs (stripL (lowerL text.data)))

/-- First index at which `needle` occurs in `hay` (Python `str.find`, as `Option`). -/
def findSub (hay needle : List Char) : Option Nat :=
  (List.range (hay.length + 1)).find? (fun i => needle.isPrefixOf (hay.drop i))

/-- Python `needle in hay` substring test. -/
def containsSub (hay needle : List Char) : Bool :=
  (findSub hay needle).isSome

/-! ## A tiny regex engine with Python `re.search` semantics

Only the constructs used by the source are supported: literals, one-char
classes, greedy star over a one-char class (`\s*`, `.*`), greedy option,
alternation, concatenation and the word-boundary assertion `\b`. -/

inductive Reg where
  | lit : List Char → Reg
  | cls : (Char → Bool) → Reg
  | starCls : (Char → Bool) → Reg
  | bnd : Reg
  | seq : Reg → Reg → Reg
  | alt : Reg → Reg → Reg
  | opt : Reg → Reg

/-- `\b` holds at position `i` of `t` iff exactly one of the two adjacent
characters is a word character (out-of-range counts as non-word). -/
def wordBoundary (t : List Char) (i : Nat) : Bool :=
  let at_ : Nat → Bool := fun j =>
    match t.drop j with
    | [] => false
    | c :: _ => isWordChar c
  (if i = 0 then false else at_ (i - 1)) != at_ i

/-- Try continuation `k` at offsets `i + n`, `i + n - 1`, …, `i` (greedy order). -/
def tryFrom (k : Nat → Option Nat) (i : Nat) : Nat → Option Nat
  | 0 => k i
  | n + 1 => (k (i + n + 1)).orElse (fun _ => tryFrom k i n)

/-- CPS matcher: `matchK t r i k` attempts `r` at position `i` of `t`,
trying continuations in Python's backtracking priority order. -/
def matchK (t : List Char) : Reg → Nat → (Nat → Option Nat) → Option Nat
  | .lit w, i, k => if w.isPrefixOf (t.drop i) then k (i + w.length) else none
  | .cls p, i, k =>
    match t.drop i with
    | c :: _ => if p c then k (i + 1) else none
    | [] => none
  | .starCls p, i, k => tryFrom k i ((t.drop i).takeWhile p).length
  | .bnd, i, k => if wordBoundary t i then k i else none
  | .seq a b, i, k => matchK t a i (fun j => matchK t b j k)
  | .alt a b, i, k => (matchK t a i k).orElse (fun _ => matchK t b i k)
  | .opt a, i, k => (matchK t a i k).orElse (fun _ => k i)

/-- `re.search`: leftmost match of `r` in `t`, returned as (start, length). -/
def research (r : Reg) (t : List Char) : Option (Nat × Nat) :=
  (List.range (t.length + 1)).findSome? fun i =>
    (matchK t r i some).map (fun e => (i, e - i))

/-- Boolean `re.search`. -/
def researchB (r : Reg) (t : List Char) : Bool := (research r t).isSome

/-- `\s*` -/
def wsStar : Reg := .starCls isPySpace

/-- `.*` (no-newline, as in Python default mode). -/
def dotStar : Reg := .starCls (fun c => !(c = '\n'))

/-- The pattern `\b` ++ literal ++ `\b` built by `word_in_text`. -/
def wordReg (w : List Char) : Reg := .seq .bnd (.seq (.lit w) .bnd)

/-- `word_in_text` (helpers.py): word-boundary-aware phrase search via the
pattern `r'\b' + re.escape(word.lower()) + r'\b'` over `text.lower()`. -/
def word_in_text (text word : String) : Bool :=
  if text = "" || word = "" then false
  else researchB (wordReg (lowerL word.data)) (lowerL text.data)

/-- `any_word_in_text` (helpers.py). -/
def any_word_in_text (text : String) (words : List String) : Bool :=
  words.any (fun w => word_in_text text w)

/-- `dedupe` (helpers.py): drop duplicates, keeping first occurrences. -/
def dedupe : List String → List String
  | [] => []
  | x :: xs => x :: (dedupe xs).filter (fun y => y ≠ x)

/-! ## E-number extraction (helpers.py `extract_enumbers`)

Pattern: `\b[eE][-\s]?(\d{3,4}[a-z]?)\b`, collected by `re.findall` and
then deduplicated.  (Python materialises `list(set(...))`, whose order is
unspecified; the embedding fixes first-occurrence order — no consumer of
the list is order-sensitive.) -/

def isAsciiDigit (c : Char) : Bool := 48 ≤ c.toNat && c.toNat ≤ 57

def isAsciiLower (c : Char) : Bool := 97 ≤ c.toNat && c.toNat ≤ 122

/-- Try the E-number pattern at position `i`; return (end, captured group). -/
def enumberAt (t : List Char) (i : Nat) : Option (Nat × List Char) :=
  if !wordBoundary t i then none
  else
    match t.drop i with
    | c :: rest =>
      if c = 'e' || c = 'E' then
        -- greedy optional separator, then 4-then-3 digits, then optional letter, then \b
        let tryDigits : Nat → List Char → Option (Nat × List Char) := fun j s =>
          let d4 := s.take 4
          let d3 := s.take 3
          let withLetter : Nat → List Char → Option (Nat × List Char) := fun j' ds =>
            (match (t.drop j').head? with
             | some c' =>
               if isAsciiLower c' && wordBoundary t (j' + 1) then
                 some (j' + 1, ds ++ [c'])
               else none
             | none => none).orElse
              (fun _ => if wordBoundary t j' then some (j', ds) else none)
          if d4.length = 4 ∧ d4.all isAsciiDigit then
            (withLetter (j + 4) d4).orElse (fun _ =>
              if d3.all isAsciiDigit then withLetter (j + 3) d3 else none)
          else if d3.length = 3 ∧ d3.all isAsciiDigit then withLetter (j + 3) d3
          else none
        match rest with
        | s :: rest' =>
          if s = '-' || isPySpace s then
            (tryDigits (i + 2) rest').orElse (fun _ => tryDigits (i + 1) rest)
          else tryDigits (i + 1) rest
        | [] => none
      else none
    | [] => none

/-- `re.findall` scan for the E-number pattern: leftmost matches, resuming
after each match end. -/
def enumberScan (t : List Char) : Nat → Nat → List (List Char)
  | _, 0 => []
  | i, fuel + 1 =>
    if i > t.length then []
    else
      match enumberAt t i with
      | some (e, grp) => grp :: enumberScan t e fuel
      | none => enumberScan t (i + 1) fuel

/-- `extract_enumbers` (helpers.py). -/
def extract_enumbers (text : String) : List String :=
  if text = "" then []
  else dedupe ((enumberScan text.data 0 (text.data.length + 1)).map String.mk)

/-! ## Result records and knowledge-base schemas -/

/-- Per-ingredient classification result (the dict returned by each
`evaluate_*` function). -/
structure IngredientResult where
  ingredient : String
  status : String
  confidence : String
  reason_codes : List String
  evidence : List String
deriving DecidableEq, Repr

/-- Product-level verdict (the dict returned by each aggregator). -/
structure ProductVerdict where
  status : String
  confidence : String
  reason : String
  failing_ingredients : List String
  reason_codes : List String
deriving DecidableEq, Repr

/-- Result of `segment_ocr_text` (zones.py). -/
structure ZoneResult where
  ingredient_zone : String
  allergen_advisory_zone : String
  detected_language : String
  parse_status : String
deriving DecidableEq, Repr

/-- Result of `detect_lecithin_source` (lecithin.py). -/
structure LecithinResult where
  is_lecithin : Bool
  source : Option String
  halal_status : Option String
deriving DecidableEq, Repr

/-- Result of the `check_*_status` helpers in halal.py. -/
structure CheckResult where
  status : Option String
  reason_code : Option String
  reason : Option String
deriving DecidableEq, Repr

/-- Result of `check_halal_certification` (halal.py). -/
structure CertResult where
  strength : String
  certifier : Option String
  region : Option String
deriving DecidableEq, Repr

/-- One E-number registry entry (config.py; the `halal` tier has no reason code). -/
structure ENumEntry where
  name : String
  reason : String
  reason_code : Option String
deriving DecidableEq, Repr

structure ENumbersConfig where
  always_haram : List (String × ENumEntry)
  source_dependent : List (String × ENumEntry)
  halal : List (String × ENumEntry)
deriving DecidableEq, Repr

structure AlcoholSection where
  terms : List String
  reason : String
  reason_code : String
deriving DecidableEq, Repr

structure AlcoholConfig where
  explicit_alcohols : AlcoholSection
  alcoholic_beverages : AlcoholSection
  alcohol_processing : AlcoholSection
  high_risk_extracts : AlcoholSection
  halal_alternatives : AlcoholSection
  low_risk_fermented : AlcoholSection
deriving DecidableEq, Repr

/-- An `always_haram` animal-derivative category (config.py). -/
structure HaramCategory where
  terms : List String
  reason : String
  reason_code : String
deriving DecidableEq, Repr

/-- A specific source sub-rule of a source-dependent category (config.py). -/
structure SourceEntry where
  terms : List String
  status : String
  reason : String
deriving DecidableEq, Repr

structure SourceDepCategory where
  generic_terms : List String
  sources : List (String × SourceEntry)
  default_status : String
  default_reason : String
  reason_code : String
deriving DecidableEq, Repr

/-- Shape of `processed_dairy` and `gelatin_products` (config.py). -/
structure DairyConfig where
  terms : List String
  halal_qualifiers : List String
  default_status : String
  reason : String
  reason_code : String
deriving DecidableEq, Repr

/-- Shape of `starter_cultures` and `other_animal_derived` entries (config.py). -/
structure SimpleCategory where
  terms : List String
  default_status : String
  reason : String
  reason_code : String
deriving DecidableEq, Repr

structure AnimalDerivativesConfig where
  always_haram : List (String × HaramCategory)
  source_dependent : List (String × SourceDepCategory)
  processed_dairy : DairyConfig
  starter_cultures : SimpleCategory
  gelatin_products : DairyConfig
  other_animal_derived : List (String × SimpleCategory)
deriving DecidableEq, Repr

structure CertifierEntry where
  terms : List String
  full_name : String
  strength : String
deriving DecidableEq, Repr

structure CertifiersConfig where
  strong_certifiers : List (String × List (String × CertifierEntry))
  generic_strong_terms : List String
  certification_phrases_strong : List String
  weak_signals_terms : List String
deriving DecidableEq, Repr

/-- A source-dependent kosher category (kosher.py `SOURCE_DEPENDENT_KOSHER`). -/
structure KosherSourceDep where
  terms : List String
  kosher_terms : List String
  not_kosher_terms : List String
deriving DecidableEq, Repr

/-- One allergen family (allergens.py `ALLERGENS_CONFIG`). -/
structure AllergenEntry where
  terms : List String
  display : String
deriving DecidableEq, Repr

/-! ## Knowledge-base data (config.py and per-service constant tables)

The entries below transcribe the Python dict/list literals in declaration
order. -/

set_option maxHeartbeats 1600000 in
def E_NUMBERS_CONFIG : ENumbersConfig :=
  { always_haram := [
      ("120", ⟨"Carmine/Cochineal", "Insect-derived colorant", some "e120_carmine_cochineal_haram"⟩),
      ("542", ⟨"Bone Phosphate", "Derived from animal bones", some "e542_bone_phosphate_haram"⟩),
      ("901", ⟨"Beeswax", "Insect-derived (strict interpretation)", some "e901_beeswax_insect"⟩),
      ("904", ⟨"Shellac", "Insect-derived glaze", some "e904_shellac_insect_haram"⟩),
      ("913", ⟨"Lanolin", "Derived from sheep wool grease", some "e913_lanolin_animal_haram"⟩)
    ],
    source_dependent := [
      ("422", ⟨"Glycerol/Glycerin", "Can be animal, plant, or synthetic", some "e422_glycerol_source_unknown"⟩),
      ("430", ⟨"Polyoxyethylene stearate", "Stearate may be animal-derived", some "e430_stearate_source_unknown"⟩),
      ("431", ⟨"Polyoxyethylene stearate", "Stearate may be animal-derived", some "e431_stearate_source_unknown"⟩),
      ("432", ⟨"Polysorbate 20", "Fatty acids may be animal-derived", some "e432_polysorbate_source_unknown"⟩),
      ("433", ⟨"Polysorbate 80", "Fatty acids may be animal-derived", some "e433_polysorbate_source_unknown"⟩),
      ("434", ⟨"Polysorbate 40", "Fatty acids may be animal-derived", some "e434_polysorbate_source_unknown"⟩),
      ("435", ⟨"Polysorbate 60", "Fatty acids may be animal-derived", some "e435_polysorbate_source_unknown"⟩),
      ("436", ⟨"Polysorbate 65", "Fatty acids may be animal-derived", some "e436_polysorbate_source_unknown"⟩),
      ("441", ⟨"Gelatin", "Animal-derived, source unknown", some "e441_gelatin_source_unknown"⟩),
      ("470", ⟨"Fatty Acid Salts", "May be animal-derived", some "e470_fatty_acid_salts_source_unknown"⟩),
      ("471", ⟨"Mono- and Diglycerides", "Glycerides may be animal-derived", some "e471_mono_diglycerides_source_unknown"⟩),
      ("472", ⟨"Fatty Acid Esters", "May be animal-derived", some "e472_fatty_acid_esters_source_unknown"⟩),
      ("473", ⟨"Sucrose Esters", "Fatty acids may be animal-derived", some "e473_sucrose_esters_source_unknown"⟩),
      ("474", ⟨"Sucroglycerides", "Glycerides may be animal-derived", some "e474_sucroglycerides_source_unknown"⟩),
      ("475", ⟨"Polyglycerol Esters", "Fatty acids may be animal-derived", some "e475_polyglycerol_esters_source_unknown"⟩),
      ("476", ⟨"PGPR", "May contain animal-derived components", some "e476_pgpr_source_unknown"⟩),
      ("477", ⟨"Propanediol Esters", "Fatty acids may be animal-derived", some "e477_propanediol_esters_source_unknown"⟩),
      ("481", ⟨"Sodium Stearoyl Lactylate", "Stearate may be animal-derived", some "e481_ssl_source_unknown"⟩),
      ("482", ⟨"Calcium Stearoyl Lactylate", "Stearate may be animal-derived", some "e482_csl_source_unknown"⟩),
      ("483", ⟨"Stearyl Tartrate", "Stearate may be animal-derived", some "e483_stearyl_tartrate_source_unknown"⟩),
      ("491", ⟨"Sorbitan Monostearate", "Stearate may be animal-derived", some "e491_sorbitan_monostearate_source_unknown"⟩),
      ("492", ⟨"Sorbitan Tristearate", "Stearate may be animal-derived", some "e492_sorbitan_tristearate_source_unknown"⟩),
      ("493", ⟨"Sorbitan Monolaurate", "Fatty acids may be animal-derived", some "e493_sorbitan_monolaurate_source_unknown"⟩),
      ("494", ⟨"Sorbitan Monooleate", "Fatty acids may be animal-derived", some "e494_sorbitan_monooleate_source_unknown"⟩),
      ("495", ⟨"Sorbitan Monopalmitate", "Fatty acids may be animal-derived", some "e495_sorbitan_monopalmitate_source_unknown"⟩),
      ("570", ⟨"Stearic Acid", "Can be animal or plant-derived", some "e570_stearic_acid_source_unknown"⟩),
      ("572", ⟨"Magnesium Stearate", "Stearate may be animal-derived", some "e572_magnesium_stearate_source_unknown"⟩),
      ("620", ⟨"Glutamic Acid", "May be animal-derived", some "e620_glutamic_acid_source_unknown"⟩),
      ("621", ⟨"MSG", "May be fermented on animal-derived media", some "e621_msg_source_unknown"⟩),
      ("627", ⟨"Disodium Guanylate", "Often derived from fish or yeast", some "e627_disodium_guanylate_source_unknown"⟩),
      ("631", ⟨"Disodium Inosinate", "Often derived from meat or fish", some "e631_disodium_inosinate_source_unknown"⟩),
      ("635", ⟨"Disodium 5\x27-ribonucleotides", "Often derived from meat or fish", some "e635_disodium_ribonucleotides_source_unknown"⟩),
      ("640", ⟨"Glycine", "Amino acid, may be animal-derived", some "e640_glycine_source_unknown"⟩),
      ("920", ⟨"L-Cysteine", "Often from hair, feathers, or hooves", some "e920_lcysteine_source_unknown"⟩),
      ("921", ⟨"L-Cystine", "Often from hair, feathers, or hooves", some "e921_lcystine_source_unknown"⟩)
    ],
    halal := [
      ("100", ⟨"Curcumin", "Plant-derived (turmeric)", none⟩),
      ("101", ⟨"Riboflavin", "Synthetic or plant-derived", none⟩),
      ("102", ⟨"Tartrazine", "Synthetic azo dye", none⟩),
      ("110", ⟨"Sunset Yellow", "Synthetic azo dye", none⟩),
      ("122", ⟨"Azorubine", "Synthetic azo dye", none⟩),
      ("124", ⟨"Ponceau 4R", "Synthetic azo dye", none⟩),
      ("129", ⟨"Allura Red", "Synthetic azo dye", none⟩),
      ("131", ⟨"Patent Blue V", "Synthetic dye", none⟩),
      ("132", ⟨"Indigotine", "Synthetic dye", none⟩),
      ("133", ⟨"Brilliant Blue", "Synthetic dye", none⟩),
      ("140", ⟨"Chlorophylls", "Plant-derived", none⟩),
      ("141", ⟨"Copper Chlorophylls", "Plant-derived with copper", none⟩),
      ("150a", ⟨"Plain Caramel", "Plant-derived (sugar)", none⟩),
      ("150b", ⟨"Caustic Sulphite Caramel", "Plant-derived", none⟩),
      ("150c", ⟨"Ammonia Caramel", "Plant-derived", none⟩),
      ("150d", ⟨"Sulphite Ammonia Caramel", "Plant-derived", none⟩),
      ("160a", ⟨"Carotenes", "Plant-derived", none⟩),
      ("160b", ⟨"Annatto", "Plant-derived", none⟩),
      ("160c", ⟨"Paprika Extract", "Plant-derived", none⟩),
      ("160d", ⟨"Lycopene", "Plant-derived (tomatoes)", none⟩),
      ("162", ⟨"Beetroot Red", "Plant-derived", none⟩),
      ("163", ⟨"Anthocyanins", "Plant-derived", none⟩),
      ("170", ⟨"Calcium Carbonate", "Mineral-derived", none⟩),
      ("171", ⟨"Titanium Dioxide", "Mineral-derived", none⟩),
      ("172", ⟨"Iron Oxides", "Mineral-derived", none⟩),
      ("200", ⟨"Sorbic Acid", "Synthetic preservative", none⟩),
      ("202", ⟨"Potassium Sorbate", "Synthetic preservative", none⟩),
      ("210", ⟨"Benzoic Acid", "Synthetic preservative", none⟩),
      ("211", ⟨"Sodium Benzoate", "Synthetic preservative", none⟩),
      ("220", ⟨"Sulphur Dioxide", "Mineral-derived gas", none⟩),
      ("223", ⟨"Sodium Metabisulphite", "Mineral-derived", none⟩),
      ("250", ⟨"Sodium Nitrite", "Mineral-derived", none⟩),
      ("260", ⟨"Acetic Acid", "Fermentation product", none⟩),
      ("270", ⟨"Lactic Acid", "Fermentation product", none⟩),
      ("280", ⟨"Propionic Acid", "Synthetic", none⟩),
      ("282", ⟨"Calcium Propionate", "Synthetic", none⟩),
      ("290", ⟨"Carbon Dioxide", "Gas", none⟩),
      ("296", ⟨"Malic Acid", "Plant-derived or synthetic", none⟩),
      ("300", ⟨"Ascorbic Acid", "Synthetic or plant-derived", none⟩),
      ("301", ⟨"Sodium Ascorbate", "Synthetic", none⟩),
      ("306", ⟨"Tocopherols", "Plant-derived (vegetable oils)", none⟩),
      ("307", ⟨"Alpha-tocopherol", "Plant-derived or synthetic", none⟩),
      ("320", ⟨"BHA", "Synthetic antioxidant", none⟩),
      ("321", ⟨"BHT", "Synthetic antioxidant", none⟩),
      ("322", ⟨"Lecithin", "Source varies - handled separately", none⟩),
      ("330", ⟨"Citric Acid", "Fermentation product", none⟩),
      ("331", ⟨"Sodium Citrates", "Derived from citric acid", none⟩),
      ("332", ⟨"Potassium Citrates", "Derived from citric acid", none⟩),
      ("333", ⟨"Calcium Citrates", "Derived from citric acid", none⟩),
      ("334", ⟨"Tartaric Acid", "Plant-derived (grape)", none⟩),
      ("336", ⟨"Cream of Tartar", "Plant-derived (grape)", none⟩),
      ("338", ⟨"Phosphoric Acid", "Mineral-derived", none⟩),
      ("339", ⟨"Sodium Phosphates", "Mineral-derived", none⟩),
      ("340", ⟨"Potassium Phosphates", "Mineral-derived", none⟩),
      ("341", ⟨"Calcium Phosphates", "Mineral-derived", none⟩),
      ("400", ⟨"Alginic Acid", "Plant-derived (seaweed)", none⟩),
      ("401", ⟨"Sodium Alginate", "Plant-derived (seaweed)", none⟩),
      ("406", ⟨"Agar", "Plant-derived (seaweed)", none⟩),
      ("407", ⟨"Carrageenan", "Plant-derived (seaweed)", none⟩),
      ("410", ⟨"Locust Bean Gum", "Plant-derived", none⟩),
      ("412", ⟨"Guar Gum", "Plant-derived", none⟩),
      ("414", ⟨"Gum Arabic", "Plant-derived", none⟩),
      ("415", ⟨"Xanthan Gum", "Fermentation product", none⟩),
      ("420", ⟨"Sorbitol", "Plant-derived", none⟩),
      ("440", ⟨"Pectin", "Plant-derived (fruit)", none⟩),
      ("460", ⟨"Cellulose", "Plant-derived", none⟩),
      ("500", ⟨"Sodium Carbonates", "Mineral-derived", none⟩),
      ("501", ⟨"Potassium Carbonates", "Mineral-derived", none⟩),
      ("503", ⟨"Ammonium Carbonates", "Synthetic", none⟩),
      ("508", ⟨"Potassium Chloride", "Mineral-derived", none⟩),
      ("509", ⟨"Calcium Chloride", "Mineral-derived", none⟩),
      ("551", ⟨"Silicon Dioxide", "Mineral-derived", none⟩),
      ("950", ⟨"Acesulfame K", "Synthetic sweetener", none⟩),
      ("951", ⟨"Aspartame", "Synthetic sweetener", none⟩),
      ("955", ⟨"Sucralose", "Synthetic sweetener", none⟩),
      ("960", ⟨"Stevia", "Plant-derived", none⟩),
      ("965", ⟨"Maltitol", "Plant-derived (starch)", none⟩),
      ("967", ⟨"Xylitol", "Plant-derived", none⟩),
      ("1400", ⟨"Dextrin", "Plant-derived (starch)", none⟩),
      ("1442", ⟨"Hydroxypropyl Distarch Phosphate", "Plant-derived (starch)", none⟩)
    ] }

def ALCOHOL_CONFIG : AlcoholConfig :=
  { explicit_alcohols := ⟨["ethanol", "ethyl alcohol", "alcohol denat", "denatured alcohol", "isopropyl alcohol"], "Contains explicit alcohol", "explicit_alcohol_haram"⟩,
    alcoholic_beverages := ⟨["wine", "beer", "whiskey", "whisky", "vodka", "rum", "brandy", "champagne", "sake", "liqueur", "sherry", "port wine", "cognac"], "Alcoholic beverage ingredient", "alcoholic_beverage_haram"⟩,
    alcohol_processing := ⟨["wine vinegar", "red wine", "white wine", "cooking wine", "rice wine"], "Wine-based ingredient", "wine_based_haram"⟩,
    high_risk_extracts := ⟨["vanilla extract", "almond extract", "lemon extract", "orange extract", "peppermint extract"], "Extract may contain alcohol as solvent", "extract_alcohol_risk"⟩,
    halal_alternatives := ⟨["vanilla powder", "vanilla bean", "vanilla paste", "alcohol-free vanilla", "halal vanilla"], "Alcohol-free alternative", "halal_vanilla_alternative"⟩,
    low_risk_fermented := ⟨["soy sauce", "miso", "tempeh", "kombucha", "kefir", "vinegar", "apple cider vinegar", "balsamic vinegar"], "Natural fermentation with negligible alcohol", "low_risk_fermented_halal"⟩ }

set_option maxHeartbeats 1600000 in
def ANIMAL_DERIVATIVES_CONFIG : AnimalDerivativesConfig :=
  { always_haram := [
      ("pork", ⟨["pork", "pig", "swine", "bacon", "ham", "lard", "porcine", "pancetta", "prosciutto", "chorizo pork", "pepperoni", "salami pork", "pork rinds", "chicharron"],
        "Pork-derived ingredient - always haram", "pork_haram"⟩),
      ("blood", ⟨["blood", "blood meal", "blood plasma", "black pudding", "blood sausage", "boudin noir", "morcilla", "hemoglobin", "dried blood"],
        "Blood-derived ingredient - always haram", "blood_haram"⟩),
      ("carnivore", ⟨["dog", "cat", "lion", "tiger", "bear", "carnivore meat", "wolf", "fox", "hyena"],
        "Carnivore meat - always haram", "carnivore_haram"⟩),
      ("carrion", ⟨["carrion", "dead animal", "roadkill"],
        "Carrion (not properly slaughtered) - always haram", "carrion_haram"⟩),
      ("civet", ⟨["civet coffee", "kopi luwak", "civet cat", "luwak coffee"],
        "Civet-processed coffee - haram (animal digestive process)", "civet_haram"⟩),
      ("castoreum", ⟨["castoreum", "beaver extract", "beaver secretion"],
        "Castoreum (beaver gland secretion) - haram", "castoreum_haram"⟩),
      ("ambergris", ⟨["ambergris", "whale ambergris", "ambra grisea"],
        "Ambergris (whale product) - haram", "ambergris_haram"⟩),
      ("musk_animal", ⟨["musk deer", "animal musk", "deer musk", "musk gland", "kasturi"],
        "Animal musk (deer gland secretion) - haram unless halal slaughtered", "animal_musk_haram"⟩),
      ("insects", ⟨["carmine", "cochineal", "shellac", "confectioners glaze", "confectionery glaze", "resinous glaze", "pharmaceutical glaze", "lac resin", "natural red 4", "crimson lake", "e120", "e904"],
        "Insect-derived ingredient - haram", "insect_derived_haram"⟩)
    ],
    source_dependent := [
      ("gelatin",
        ⟨["gelatin", "gelatine", "gel"],
          [
          ("porcine", ⟨["porcine gelatin", "porcine gelatine", "pig gelatin", "pig gelatine", "pork gelatin", "pork gelatine"],
            "HARAM", "Porcine gelatin"⟩),
          ("bovine", ⟨["bovine gelatin", "bovine gelatine", "beef gelatin", "beef gelatine", "cow gelatin", "cow gelatine"],
            "MUSHBOOH", "Bovine gelatin - requires halal slaughter verification"⟩),
          ("fish", ⟨["fish gelatin", "fish gelatine", "marine gelatin", "marine gelatine", "kosher gelatin", "kosher gelatine"],
            "HALAL", "Fish gelatin - halal"⟩),
          ("halal", ⟨["halal gelatin", "halal gelatine", "gelatin (halal)", "gelatine (halal)", "halal certified gelatin"],
            "HALAL", "Explicitly halal certified gelatin"⟩),
          ("plant", ⟨["plant gelatin", "vegan gelatin", "vegetable gelatin", "agar", "agar-agar", "carrageenan", "pectin"],
            "HALAL", "Plant-based gelatin alternative"⟩)
          ],
          "MUSHBOOH",
          "Gelatin source not specified - requires verification",
          "gelatin_source_unknown"⟩),
      ("enzymes",
        ⟨["enzyme", "rennet", "lipase", "protease", "pepsin", "amylase", "lactase"],
          [
          ("microbial", ⟨["microbial enzyme", "microbial rennet", "vegetable rennet", "fungal enzyme", "bacterial enzyme", "microbial lipase", "microbial pepsin"],
            "HALAL", "Microbial/vegetable enzyme"⟩),
          ("animal", ⟨["animal enzyme", "animal rennet", "calf rennet", "animal lipase", "porcine pepsin", "pig pepsin"],
            "MUSHBOOH", "Animal enzyme - source verification needed"⟩)
          ],
          "MUSHBOOH",
          "Enzyme source not specified",
          "enzyme_source_unknown"⟩),
      ("glycerin",
        ⟨["glycerin", "glycerine", "glycerol", "e422"],
          [
          ("plant", ⟨["vegetable glycerin", "vegetable glycerine", "plant glycerin", "plant-based glycerin", "palm glycerin", "coconut glycerin"],
            "HALAL", "Plant-based glycerin"⟩),
          ("animal", ⟨["animal glycerin", "tallow glycerin", "beef glycerin"],
            "MUSHBOOH", "Animal-derived glycerin - requires verification"⟩)
          ],
          "MUSHBOOH",
          "Glycerin source not specified - may be animal or plant",
          "glycerin_source_unknown"⟩),
      ("stearates",
        ⟨["stearate", "stearic acid", "magnesium stearate", "calcium stearate", "sodium stearate", "stearyl alcohol", "e470", "e570", "e572"],
          [
          ("plant", ⟨["vegetable stearate", "plant stearate", "vegetable stearic acid", "palm stearate"],
            "HALAL", "Plant-based stearate"⟩),
          ("animal", ⟨["animal stearate", "tallow stearate", "beef stearate"],
            "MUSHBOOH", "Animal-derived stearate"⟩)
          ],
          "MUSHBOOH",
          "Stearate source not specified - may be animal or plant",
          "stearate_source_unknown"⟩),
      ("fatty_acids",
        ⟨["fatty acid", "mono and diglycerides", "monoglycerides", "diglycerides", "e471", "e472", "e473", "e474", "e475", "e476", "e477"],
          [
          ("plant", ⟨["vegetable fatty acid", "plant fatty acid", "vegetable mono", "vegetable emulsifier", "soy-based emulsifier", "palm-based"],
            "HALAL", "Plant-based fatty acids"⟩),
          ("animal", ⟨["animal fatty acid", "tallow-based", "beef fat"],
            "MUSHBOOH", "Animal-derived fatty acids"⟩)
          ],
          "MUSHBOOH",
          "Fatty acid source not specified",
          "fatty_acid_source_unknown"⟩),
      ("shortening",
        ⟨["shortening", "tallow"],
          [
          ("vegetable", ⟨["vegetable shortening", "palm shortening", "coconut shortening", "vegetable oil shortening"],
            "HALAL", "Vegetable shortening"⟩),
          ("animal", ⟨["animal shortening", "beef tallow", "lard"],
            "HARAM", "Animal shortening (often contains lard)"⟩)
          ],
          "MUSHBOOH",
          "Shortening source not specified",
          "shortening_source_unknown"⟩),
      ("collagen",
        ⟨["collagen", "hydrolyzed collagen", "collagen peptides"],
          [
          ("marine", ⟨["marine collagen", "fish collagen", "sea collagen"],
            "HALAL", "Marine collagen - halal"⟩),
          ("bovine", ⟨["bovine collagen", "beef collagen", "cow collagen"],
            "MUSHBOOH", "Bovine collagen - requires verification"⟩),
          ("porcine", ⟨["porcine collagen", "pig collagen"],
            "HARAM", "Porcine collagen"⟩),
          ("plant", ⟨["plant collagen", "vegan collagen", "collagen booster"],
            "HALAL", "Plant-based collagen alternative"⟩)
          ],
          "MUSHBOOH",
          "Collagen source not specified",
          "collagen_source_unknown"⟩),
      ("taurine",
        ⟨["taurine"],
          [
          ("synthetic", ⟨["synthetic taurine", "vegan taurine", "plant taurine"],
            "HALAL", "Synthetic taurine - halal"⟩),
          ("animal", ⟨["ox bile taurine", "animal taurine", "bile taurine"],
            "MUSHBOOH", "Animal-derived taurine"⟩)
          ],
          "MUSHBOOH",
          "Taurine source not specified - may be synthetic or animal",
          "taurine_source_unknown"⟩),
      ("vitamin_a",
        ⟨["vitamin a", "retinol", "retinyl palmitate", "retinyl acetate"],
          [
          ("synthetic", ⟨["synthetic vitamin a", "synthetic retinol"],
            "HALAL", "Synthetic vitamin A"⟩),
          ("plant", ⟨["beta carotene", "plant vitamin a", "carrot extract"],
            "HALAL", "Plant-derived vitamin A precursor"⟩),
          ("fish", ⟨["fish liver oil", "cod liver oil", "fish vitamin a"],
            "HALAL", "Fish-derived vitamin A"⟩)
          ],
          "HALAL",
          "Vitamin A - typically synthetic or plant-derived",
          "vitamin_a_halal"⟩),
      ("vitamin_d3",
        ⟨["vitamin d3", "cholecalciferol", "d3"],
          [
          ("lichen", ⟨["lichen vitamin d3", "lichen-derived", "vegan vitamin d3", "plant vitamin d3"],
            "HALAL", "Lichen-derived vitamin D3"⟩),
          ("lanolin", ⟨["lanolin vitamin d3", "sheep wool", "wool-derived"],
            "HALAL", "Lanolin-derived vitamin D3 (wool is halal)"⟩),
          ("fish", ⟨["fish oil vitamin d3", "fish liver oil", "cod liver"],
            "HALAL", "Fish-derived vitamin D3"⟩)
          ],
          "HALAL",
          "Vitamin D3 - typically from lanolin (sheep wool) or fish",
          "vitamin_d3_halal"⟩),
      ("l_cysteine",
        ⟨["l-cysteine", "l cysteine", "cysteine", "e920", "e921"],
          [
          ("synthetic", ⟨["synthetic l-cysteine", "fermentation l-cysteine", "vegan l-cysteine"],
            "HALAL", "Synthetic L-cysteine"⟩),
          ("human_hair", ⟨["human hair l-cysteine", "human hair cysteine"],
            "HARAM", "Human hair-derived L-cysteine"⟩),
          ("duck_feather", ⟨["duck feather", "poultry feather", "feather cysteine"],
            "MUSHBOOH", "Poultry feather L-cysteine - requires verification"⟩)
          ],
          "MUSHBOOH",
          "L-cysteine source not specified - often from human hair or feathers",
          "l_cysteine_source_unknown"⟩),
      ("charcoal",
        ⟨["activated charcoal", "activated carbon", "charcoal", "carbon black"],
          [
          ("plant", ⟨["coconut charcoal", "wood charcoal", "bamboo charcoal", "vegetable charcoal"],
            "HALAL", "Plant-based charcoal"⟩),
          ("bone", ⟨["bone char", "bone charcoal", "animal charcoal"],
            "MUSHBOOH", "Bone-derived charcoal"⟩)
          ],
          "MUSHBOOH",
          "Charcoal source not specified - may be bone or plant",
          "charcoal_source_unknown"⟩),
      ("wax",
        ⟨["wax", "food grade wax", "glazing agent"],
          [
          ("plant", ⟨["carnauba wax", "candelilla wax", "rice bran wax", "plant wax", "vegetable wax"],
            "HALAL", "Plant-based wax"⟩),
          ("insect", ⟨["beeswax", "bee wax", "e901"],
            "MUSHBOOH", "Beeswax - permissibility debated"⟩),
          ("petroleum", ⟨["paraffin wax", "microcrystalline wax", "petroleum wax"],
            "HALAL", "Petroleum-based wax"⟩)
          ],
          "MUSHBOOH",
          "Wax source not specified",
          "wax_source_unknown"⟩),
      ("natural_flavors",
        ⟨["natural flavor", "natural flavour", "natural flavoring", "natural flavouring", "natural butter flavor", "butter flavor"],
          [
          ("plant", ⟨["plant-based flavor", "vegetable flavor", "fruit flavor", "spice extract"],
            "HALAL", "Plant-based natural flavor"⟩),
          ("halal", ⟨["halal flavor", "halal natural flavor"],
            "HALAL", "Halal-certified natural flavor"⟩)
          ],
          "MUSHBOOH",
          "Natural flavors have undisclosed sources",
          "natural_flavor_source_unknown"⟩),
      ("cetyl_stearyl_alcohol",
        ⟨["cetyl alcohol", "stearyl alcohol", "cetearyl alcohol"],
          [
          ("plant", ⟨["vegetable cetyl", "coconut cetyl", "palm cetyl", "plant-derived cetyl"],
            "HALAL", "Plant-derived fatty alcohol"⟩),
          ("animal", ⟨["animal cetyl", "tallow cetyl"],
            "MUSHBOOH", "Animal-derived fatty alcohol"⟩)
          ],
          "MUSHBOOH",
          "Cetyl/stearyl alcohol source not specified",
          "cetyl_stearyl_source_unknown"⟩)
    ],
    processed_dairy := ⟨["cheese", "whey", "whey powder", "whey protein", "casein", "caseinate", "sodium caseinate", "calcium caseinate", "casein hydrolysate", "lactose", "milk protein", "whey permeate", "sweet whey"],
      ["vegetarian cheese", "microbial rennet", "halal cheese", "halal certified", "vegetable rennet"],
      "MUSHBOOH", "Dairy may contain animal rennet", "dairy_rennet_unknown"⟩,
    starter_cultures := ⟨["starter culture", "lactic culture", "culture", "yogurt culture", "cheese culture", "probiotic culture"],
      "MUSHBOOH", "Starter cultures may be grown on non-halal media", "starter_culture_unknown"⟩,
    gelatin_products := ⟨["marshmallow", "marshmallows", "gummy", "gummies", "gummy bear", "gummy bears", "gummy candy", "jello", "jelly", "jell-o", "gelatin capsule", "gel capsule", "softgel", "wine gums"],
      ["halal marshmallow", "vegan marshmallow", "halal gummy", "vegan gummy", "halal jelly", "vegetarian capsule", "vegan capsule", "plant capsule"],
      "MUSHBOOH", "Usually contains gelatin - check ingredients", "gelatin_product_check"⟩,
    other_animal_derived := [
      ("honey", ⟨["honey", "royal jelly", "bee pollen", "propolis"],
        "HALAL", "Bee products are halal", "bee_products_halal"⟩),
      ("eggs", ⟨["egg", "eggs", "egg white", "egg yolk", "albumen", "egg powder", "dried egg", "egg lecithin"],
        "HALAL", "Eggs are halal", "eggs_halal"⟩),
      ("bone_products", ⟨["bone broth", "beef broth", "chicken broth", "bone phosphate", "bone meal", "dicalcium phosphate"],
        "MUSHBOOH", "Bone products require halal source verification", "bone_product_source_unknown"⟩),
      ("isinglass", ⟨["isinglass"],
        "HALAL", "Fish bladder - halal (fining agent)", "isinglass_halal"⟩),
      ("keratin", ⟨["keratin", "hydrolyzed keratin"],
        "MUSHBOOH", "Keratin from hair/feathers/hooves - source dependent", "keratin_source_unknown"⟩),
      ("elastin", ⟨["elastin", "hydrolyzed elastin"],
        "MUSHBOOH", "Elastin from animal connective tissue", "elastin_source_unknown"⟩),
      ("lanolin", ⟨["lanolin", "wool grease", "wool wax"],
        "HALAL", "Lanolin from sheep wool - halal (no slaughter)", "lanolin_halal"⟩),
      ("omega3", ⟨["omega-3", "omega 3", "fish oil", "dha", "epa", "salmon oil", "cod liver oil", "krill oil", "algae oil", "algal oil"],
        "HALAL", "Omega-3 typically from fish or algae - halal", "omega3_halal"⟩),
      ("chitosan", ⟨["chitosan", "chitin"],
        "HALAL", "Chitosan from shellfish/fungi - halal", "chitosan_halal"⟩)
    ] }

def CERTIFIERS_CONFIG : CertifiersConfig :=
  { strong_certifiers := [
      ("malaysia", [
        ("jakim", ⟨["jakim", "jabatan kemajuan islam"], "JAKIM", "HIGH"⟩)
      ]),
      ("indonesia", [
        ("mui", ⟨["mui", "majelis ulama indonesia", "lppom"], "MUI/LPPOM", "HIGH"⟩)
      ]),
      ("usa", [
        ("ifanca", ⟨["ifanca", "islamic food and nutrition council"], "IFANCA", "HIGH"⟩),
        ("iswa", ⟨["iswa", "islamic services of america"], "ISWA", "HIGH"⟩)
      ]),
      ("europe", [
        ("hmc", ⟨["hmc", "halal monitoring committee"], "HMC", "HIGH"⟩),
        ("hfa", ⟨["hfa", "halal food authority"], "HFA", "HIGH"⟩)
      ]),
      ("middle_east", [
        ("esma", ⟨["esma", "emirates authority"], "ESMA", "HIGH"⟩)
      ])
    ],
    generic_strong_terms := ["halal certified", "halal certification", "certified halal"],
    certification_phrases_strong := ["halal approved", "halal verified", "100% halal"],
    weak_signals_terms := ["suitable for muslims", "muslim friendly", "no pork", "no alcohol", "vegetarian"] }

def INHERENTLY_HALAL_PLANT_SIMPLE : List String := ["sugar", "salt", "water", "flour", "wheat", "rice", "corn", "oats", "barley", "potato", "tomato", "onion", "garlic", "pepper", "spice", "herb", "vegetable", "fruit", "apple", "orange", "lemon", "banana", "oil", "olive oil", "sunflower oil", "palm oil", "coconut oil", "rapeseed oil", "canola oil", "milk powder", "skim milk", "whole milk", "cocoa", "chocolate", "coffee", "tea", "yeast", "baking soda", "baking powder", "vitamin", "mineral", "calcium", "iron", "zinc"]

def HARAM_COLORANTS : List String := ["carmine", "cochineal", "e120", "natural red 4", "crimson lake"]

def FORBIDDEN_LAND_ANIMALS : List String := ["pork", "pig", "swine", "bacon", "ham", "lard", "porcine", "rabbit", "hare", "horse", "donkey", "camel"]

def FORBIDDEN_SEAFOOD : List String := ["shellfish", "shrimp", "prawn", "lobster", "crab", "crayfish", "clam", "mussel", "oyster", "scallop", "squid", "octopus", "catfish", "shark", "eel", "sturgeon", "swordfish"]

def INSECT_DERIVED : List String := ["carmine", "cochineal", "e120", "natural red 4", "shellac", "e904", "lac"]

def BLOOD_PRODUCTS : List String := ["blood", "blood meal", "blood plasma", "black pudding"]

def GRAPE_PRODUCTS : List String := ["wine", "grape juice", "wine vinegar", "champagne", "brandy", "cognac"]

def MEAT_DAIRY_MIX : List String := ["cheeseburger", "meat and cheese", "bacon cheese"]

def KOSHER_CERTIFICATIONS : List String := ["ou", "ok", "star-k", "kof-k", "crc", "scroll k", "triangle k", "kosher certified", "certified kosher", "pareve", "parve", "dairy", "meat", "chalav yisrael"]

def KOSHER_SAFE_INGREDIENTS : List String := ["sugar", "cane sugar", "beet sugar", "brown sugar", "powdered sugar", "honey", "maple syrup", "agave", "stevia", "sucralose", "aspartame", "glucose", "fructose", "dextrose", "maltodextrin", "corn syrup", "flour", "wheat flour", "rice", "corn", "oats", "barley", "rye", "cornstarch", "corn starch", "potato starch", "tapioca", "starch", "vegetable oil", "sunflower oil", "canola oil", "olive oil", "palm oil", "coconut oil", "soybean oil", "corn oil", "rapeseed oil", "safflower oil", "tomato", "onion", "garlic", "carrot", "potato", "apple", "orange", "lemon", "lime", "banana", "berry", "berries", "fruit", "vegetable", "almond", "peanut", "walnut", "cashew", "pistachio", "sesame", "sunflower seed", "pumpkin seed", "chia", "flax", "hemp seed", "soy", "soybean", "chickpea", "lentil", "bean", "pea", "salt", "pepper", "cinnamon", "vanilla", "paprika", "turmeric", "cumin", "oregano", "basil", "thyme", "rosemary", "parsley", "ginger", "nutmeg", "clove", "cardamom", "coriander", "citric acid", "ascorbic acid", "vitamin c", "vitamin e", "tocopherol", "pectin", "agar", "carrageenan", "guar gum", "xanthan gum", "locust bean gum", "soy lecithin", "sunflower lecithin", "lecithin", "natural flavor", "natural flavoring", "artificial flavor", "color", "caramel color", "annatto", "beta carotene", "turmeric color", "baking soda", "baking powder", "yeast", "sodium bicarbonate", "calcium carbonate", "potassium sorbate", "sodium benzoate", "water", "carbonated water", "sparkling water", "cocoa", "cocoa powder", "cocoa butter", "chocolate", "coffee", "vinegar", "apple cider vinegar", "white vinegar", "rice vinegar", "distilled vinegar", "malt vinegar"]

def SOURCE_DEPENDENT_KOSHER : List (String × KosherSourceDep) := [
  ("gelatin", ⟨["gelatin", "gelatine"], ["fish gelatin", "kosher gelatin"], ["pork gelatin", "porcine gelatin"]⟩),
  ("rennet", ⟨["rennet", "enzyme"], ["microbial rennet", "vegetable rennet", "microbial enzyme"], ["animal rennet", "calf rennet"]⟩),
  ("glycerin", ⟨["glycerin", "glycerol", "e422"], ["vegetable glycerin", "plant glycerin"], ["animal glycerin"]⟩)
  ]

def MEAT_INGREDIENTS : List String := ["beef", "pork", "chicken", "turkey", "lamb", "veal", "goat", "mutton", "duck", "goose", "rabbit", "venison", "bison", "buffalo", "bacon", "ham", "sausage", "salami", "pepperoni", "prosciutto", "hot dog", "bologna", "pastrami", "corned beef", "jerky", "meat", "poultry", "flesh", "carcass", "lard", "tallow", "suet", "dripping", "schmaltz", "bone broth", "beef broth", "chicken broth", "meat broth", "bone meal", "meat extract", "meat powder"]

def FISH_SEAFOOD_INGREDIENTS : List String := ["fish", "salmon", "tuna", "cod", "tilapia", "trout", "bass", "halibut", "mackerel", "sardine", "anchovy", "herring", "haddock", "pollock", "catfish", "carp", "perch", "snapper", "grouper", "flounder", "sole", "swordfish", "mahi", "eel", "caviar", "roe", "shellfish", "shrimp", "prawn", "lobster", "crab", "crayfish", "crawfish", "clam", "mussel", "oyster", "scallop", "squid", "calamari", "octopus", "fish sauce", "fish oil", "fish paste", "fish stock", "dashi", "omega-3", "fish gelatin", "isinglass", "surimi", "worcestershire"]

def DAIRY_INGREDIENTS : List String := ["milk", "cream", "butter", "cheese", "yogurt", "yoghurt", "kefir", "whey", "casein", "lactose", "lactalbumin", "lactoglobulin", "ghee", "buttermilk", "sour cream", "creme fraiche", "mascarpone", "ricotta", "mozzarella", "parmesan", "cheddar", "brie", "feta", "ice cream", "gelato", "custard", "pudding", "milk powder", "dried milk", "skim milk", "whole milk", "condensed milk", "evaporated milk", "dairy", "milkfat", "milk fat", "milk solids"]

def EGG_INGREDIENTS : List String := ["egg", "eggs", "egg white", "egg yolk", "albumin", "albumen", "globulin", "lysozyme", "mayonnaise", "meringue", "aioli", "ovalbumin", "ovomucin", "ovomucoid", "ovovitellin", "egg powder", "dried egg", "liquid egg"]

def BEE_PRODUCTS : List String := ["honey", "bee pollen", "royal jelly", "beeswax", "propolis"]

def ANIMAL_DERIVED_ADDITIVES : List String := ["gelatin", "gelatine", "carmine", "cochineal", "e120", "natural red 4", "shellac", "e904", "isinglass", "rennet", "animal rennet", "bone char", "bone phosphate", "lanolin", "tallow", "castoreum", "civet", "musk", "ambergris", "l-cysteine"]

def POSSIBLY_ANIMAL_DERIVED : List String := ["glycerin", "glycerol", "e422", "stearic acid", "e570", "mono and diglycerides", "e471", "natural flavors", "natural flavoring", "vitamin d3", "cholecalciferol", "omega-3", "lecithin"]

def VEGAN_SAFE_VERSIONS : List String := ["vegetable glycerin", "plant glycerin", "soy lecithin", "sunflower lecithin", "rapeseed lecithin", "vegan", "plant-based", "dairy-free", "egg-free", "algae omega", "algal omega", "flaxseed omega", "agar", "agar-agar", "pectin", "carrageenan", "vegetable rennet", "microbial rennet", "vegan d3", "lichen d3", "plant d3"]

def ALLERGENS_CONFIG : List (String × AllergenEntry) := [
  ("peanuts", ⟨["peanut", "peanuts", "groundnut", "groundnuts", "arachis", "cacahuete", "cacahuète", "erdnuss"], "Peanuts"⟩),
  ("tree_nuts", ⟨["almond", "almonds", "cashew", "cashews", "walnut", "walnuts", "pecan", "pecans", "pistachio", "pistachios", "hazelnut", "hazelnuts", "macadamia", "brazil nut", "chestnut", "chestnuts", "pine nut", "pine nuts", "tree nut", "tree nuts"], "Tree Nuts"⟩),
  ("milk", ⟨["milk", "dairy", "lactose", "casein", "whey", "cream", "butter", "cheese", "yogurt", "lactalbumin", "lactoglobulin", "ghee", "leche", "lait", "milch", "latte"], "Milk"⟩),
  ("eggs", ⟨["egg", "eggs", "albumin", "albumen", "globulin", "lysozyme", "mayonnaise", "meringue", "ovalbumin", "ovomucin", "ovovitellin", "huevo", "oeuf", "ei"], "Eggs"⟩),
  ("fish", ⟨["fish", "cod", "salmon", "tuna", "anchovy", "anchovies", "sardine", "sardines", "mackerel", "herring", "bass", "trout", "tilapia", "haddock", "pollock", "fish sauce", "fish oil", "omega-3", "pescado", "poisson", "fisch"], "Fish"⟩),
  ("shellfish", ⟨["shellfish", "shrimp", "prawn", "prawns", "lobster", "crab", "crayfish", "clam", "clams", "mussel", "mussels", "oyster", "oysters", "scallop", "scallops", "squid", "calamari", "octopus", "crustacean", "crustaceans"], "Shellfish"⟩),
  ("soy", ⟨["soy", "soya", "soybean", "soybeans", "edamame", "tofu", "tempeh", "miso", "soy sauce", "soy lecithin", "soja"], "Soy"⟩),
  ("wheat", ⟨["wheat", "flour", "bread", "pasta", "semolina", "durum", "spelt", "kamut", "farina", "couscous", "bulgur", "seitan", "gluten", "trigo", "blé", "weizen"], "Wheat"⟩),
  ("sesame", ⟨["sesame", "sesame seed", "sesame seeds", "sesame oil", "tahini", "halvah", "hummus", "sésamo", "sésame", "sesam"], "Sesame"⟩),
  ("mustard", ⟨["mustard", "mustard seed", "mustard seeds", "moutarde", "senf", "mostaza"], "Mustard"⟩),
  ("celery", ⟨["celery", "celeriac", "céleri", "sellerie", "apio"], "Celery"⟩),
  ("sulfites", ⟨["sulfite", "sulfites", "sulphite", "sulphites", "sulfur dioxide", "sulphur dioxide", "sodium sulfite", "sodium bisulfite", "sodium metabisulfite", "potassium bisulfite", "potassium metabisulfite", "e220", "e221", "e222", "e223", "e224", "e225", "e226", "e227", "e228"], "Sulfites"⟩)
  ]

def INGREDIENT_HEADERS : List (String × List String) := [
  ("en", ["ingredients:", "ingredients", "contains:", "made with:"]),
  ("es", ["ingredientes:", "ingredientes", "contiene:"]),
  ("fr", ["ingrédients:", "ingredients:", "ingrédients", "contient:"]),
  ("de", ["zutaten:", "zutaten", "enthält:"]),
  ("it", ["ingredienti:", "ingredienti", "contiene:"]),
  ("pt", ["ingredientes:", "ingredientes", "contém:"]),
  ("nl", ["ingrediënten:", "ingredienten:", "bevat:"]),
  ("ar", ["المكونات:", "المكونات"]),
  ("tr", ["içindekiler:", "içerikler:"]),
  ("id", ["komposisi:", "bahan:"]),
  ("ms", ["ramuan:", "bahan:"])
  ]

def LECITHIN_HALAL_STATUS : List (String × String) := [
  ("sunflower", "HALAL"),
  ("soy", "UNVERIFIED"),
  ("rapeseed", "HALAL"),
  ("egg", "HALAL"),
  ("unspecified", "UNVERIFIED")
  ]

/-! ## Regex pattern helpers -/

/-- Literal pattern. -/
def rlit (s : String) : Reg := .lit s.data

/-- Concatenation of a pattern list (empty list is the empty literal). -/
def rcat (rs : List Reg) : Reg := rs.foldr .seq (.lit [])

/-- The one-character class `[:\s]`. -/
def colonSpace (c : Char) : Bool := c = ':' || isPySpace c

/-- Apostrophe class `['’]` of the egg-lecithin pattern. -/
def isApos (c : Char) : Bool := c = Char.ofNat 39 || c = '’'

/-! ## Lecithin detection (lecithin.py) -/

/-- `LECITHIN_PATTERNS` (lecithin.py), each regex transcribed into `Reg`.
Source order: sunflower, soy, rapeseed, egg. -/
def LECITHIN_PATTERNS : List (String × List Reg) := [
  ("sunflower", [
    rcat [rlit "sunflower", wsStar, rlit "lecithin"],
    rcat [rlit "lecithin", wsStar, .opt (rlit "("), wsStar, rlit "sunflower", wsStar, .opt (rlit ")")],
    rcat [rlit "lecithin", .opt (rlit "e"), wsStar, .opt (rcat [rlit "de", wsStar]),
          .alt (rlit "tournesol") (rlit "girasol")],
    rcat [rlit "sonnenblumen", wsStar, rlit "lecithin"]]),
  ("soy", [
    rcat [rlit "soy", wsStar, rlit "lecithin"],
    rcat [rlit "soya", wsStar, rlit "lecithin"],
    rcat [rlit "lecithin", wsStar, .opt (rlit "("), wsStar, rlit "soy", .opt (rlit "a"), wsStar, .opt (rlit ")")],
    rcat [rlit "lecithin", .opt (rlit "e"), wsStar, .opt (rcat [rlit "de", wsStar]), rlit "soja"],
    rcat [rlit "soja", wsStar, rlit "lecithin"]]),
  ("rapeseed", [
    rcat [rlit "rapeseed", wsStar, rlit "lecithin"],
    rcat [rlit "canola", wsStar, rlit "lecithin"],
    rcat [rlit "lecithin", wsStar, .opt (rlit "("), wsStar, .alt (rlit "rapeseed") (rlit "canola"), wsStar, .opt (rlit ")")],
    rcat [rlit "lecithin", .opt (rlit "e"), wsStar, .opt (rcat [rlit "de", wsStar]), rlit "colza"],
    rcat [rlit "raps", wsStar, rlit "lecithin"]]),
  ("egg", [
    rcat [rlit "egg", wsStar, rlit "lecithin"],
    rcat [rlit "lecithin", wsStar, .opt (rlit "("), wsStar, rlit "egg", wsStar, .opt (rlit ")")],
    rcat [rlit "lecithin", .opt (rlit "e"), wsStar, .opt (rcat [rlit "d", .opt (.cls isApos), wsStar]),
          .alt (rlit "oeuf") (rlit "huevo")]])]

/-- `GENERIC_LECITHIN` (lecithin.py): generic lecithin markers. -/
def GENERIC_LECITHIN : List Reg := [
  rcat [.bnd, rlit "lecithin", .bnd],
  rcat [.bnd, rlit "lecithin", .opt (rlit "e"), .bnd],
  rcat [.bnd, rlit "e322", .bnd],
  rcat [.bnd, rlit "e", wsStar, rlit "322", .bnd]]

/-- `detect_lecithin_source` (lecithin.py). -/
def detect_lecithin_source (text : String) : LecithinResult :=
  if text = "" then ⟨false, none, none⟩
  else
    let textLower := lowerL text.data
    match LECITHIN_PATTERNS.find? (fun sp => sp.2.any (fun r => researchB r textLower)) with
    | some sp =>
      ⟨true, some sp.1, some ((List.lookup sp.1 LECITHIN_HALAL_STATUS).getD "UNVERIFIED")⟩
    | none =>
      if GENERIC_LECITHIN.any (fun r => researchB r textLower) then
        ⟨true, some "unspecified", some "UNVERIFIED"⟩
      else ⟨false, none, none⟩

/-- `detect_lecithin_source_combined` (lecithin.py): original text first,
then normalized text; a specific source wins over a generic hit. -/
def detect_lecithin_source_combined (original_text normalized_text : String) : LecithinResult :=
  let result := detect_lecithin_source original_text
  if result.is_lecithin ∧ result.source ≠ some "unspecified" then result
  else
    let result_norm := detect_lecithin_source normalized_text
    if result_norm.is_lecithin ∧ result_norm.source ≠ some "unspecified" then result_norm
    else if result.is_lecithin then result
    else result_norm

/-! ## Zone segmentation (zones.py) -/

/-- `ALLERGEN_PATTERNS` (zones.py), each regex transcribed into `Reg`. -/
def ALLERGEN_PATTERNS : List Reg := [
  rcat [rlit "may contain", .cls colonSpace],
  rcat [rlit "produced in", dotStar, .alt (rlit "contains") (rlit "with")],
  rlit "traces of",
  rcat [rlit "manufactured", dotStar,
        .alt (rlit "nuts") (.alt (rlit "peanuts") (.alt (rlit "milk") (rlit "eggs")))],
  rcat [rlit "allergy ", .alt (rlit "advice") (.alt (rlit "information") (rlit "warning"))],
  rcat [rlit "allergen", .opt (rlit "s"), .cls colonSpace],
  rcat [rlit "contains", .cls colonSpace]]

/-- `detect_language` (zones.py): first language whose header pattern is a
substring; defaults to English. -/
def detect_language (text : String) : String :=
  let textLower := lowerL text.data
  match INGREDIENT_HEADERS.find? (fun lp => lp.2.any (fun p => containsSub textLower p.data)) with
  | some lp => lp.1
  | none => "en"

/-- The flattened multilingual header list, in dict-value order. -/
def allIngredientHeaders : List String := (INGREDIENT_HEADERS.map Prod.snd).flatten

/-- Earliest header occurrence over all headers (zones.py min-position scan). -/
def headerMinPos (textLower : List Char) : Option Nat :=
  allIngredientHeaders.foldl
    (fun best h =>
      match findSub textLower h.data with
      | some pos =>
        match best with
        | none => some pos
        | some b => if pos < b then some pos else some b
      | none => best)
    none

/-- `end_markers` of `segment_ocr_text` (zones.py). -/
def zonesEndMarkers : List String := [
  "nutrition facts", "nutritional information", "valeur nutritive",
  "información nutricional", "nährwertangaben",
  "may contain", "allergy", "allergen", "produced in", "manufactured",
  "storage:", "store ", "best before", "use by", "expiry"]

/-- The end-marker cut loop: the first marker found beyond position 50
truncates the zone (markers found at ≤ 50 are skipped, and the scan
continues). -/
def cutEndMarkers : List String → List Char → List Char
  | [], z => z
  | m :: ms, z =>
    match findSub (lowerL z) m.data with
    | some p => if 50 < p then stripL (z.take p) else cutEndMarkers ms z
    | none => cutEndMarkers ms z

/-- Allergen-advisory extraction of `segment_ocr_text` (zones.py): first
matching pattern; advisory runs to the first `.`/newline after the match,
else is capped at 200 characters. -/
def extractAdvisory (text textLower : List Char) : List Char :=
  match ALLERGEN_PATTERNS.findSome? (fun r => research r textLower) with
  | some sl =>
    match ((text.drop sl.1).drop sl.2).findIdx? (fun c => c = '.' || c = '\n') with
    | some q => (text.drop sl.1).take (sl.2 + q + 1)
    | none => (text.drop sl.1).take 200
  | none => []

/-- The header-scan branch of `segment_ocr_text`: the ingredient zone and
the provisional parse status (marker found → zone from the marker with the
end-marker cut, `"VERIFIED"`; no marker → whole text, `"UNVERIFIED"`). -/
def segmentZonePair (text textLower : List Char) : List Char × String :=
  match headerMinPos textLower with
  | some p => (cutEndMarkers zonesEndMarkers (text.drop p), "VERIFIED")
  | none => (text, "UNVERIFIED")

/-- `segment_ocr_text` (zones.py). -/
def segment_ocr_text (raw_text : String) : ZoneResult :=
  if raw_text = "" || (stripL raw_text.data).length < 5 then
    ⟨"", "", "unknown", "NO_INGREDIENTS"⟩
  else
    let text := stripL raw_text.data
    let zs := segmentZonePair text (lowerL text)
    ⟨String.mk (stripL zs.1), String.mk (stripL (extractAdvisory text (lowerL text))),
     detect_language (String.mk text),
     if (stripL zs.1).length < 10 then "NO_INGREDIENTS" else zs.2⟩

/-! ## String helpers shared by the engines -/

/-- Python `sub in s` on `String`s. -/
def strContains (s sub : String) : Bool := containsSub s.data sub.data

/-- Python `s.endswith(suffix)`. -/
def strEndsWith (s suffix : String) : Bool := suffix.data.isSuffixOf s.data

/-- Python `s.lower()` (ASCII). -/
def strLower (s : String) : String := String.mk (lowerL s.data)

/-- ASCII uppercasing of one character. -/
def upperChar (c : Char) : Char :=
  if 97 ≤ c.toNat && c.toNat ≤ 122 then Char.ofNat (c.toNat - 32) else c

/-- Python `s.title()` restricted to the single-word keys it is applied to
(capitalise the first character). -/
def titleStr (s : String) : String :=
  match s.data with
  | [] => ""
  | c :: r => String.mk (upperChar c :: r)

/-- `sorted(list(set(l)))`: deduplicate, then sort lexicographically. -/
def sortedDedup (l : List String) : List String :=
  (dedupe l).mergeSort (fun a b => a ≤ b)

/-! ## Status and confidence constants (halal.py / kosher.py / diets.py) -/

def HALAL_CONFIRMED : String := "HALAL_CONFIRMED"
def HARAM : String := "HARAM"
def MUSHBOOH : String := "MUSHBOOH"
def NOT_HALAL_UNVERIFIED : String := "NOT_HALAL_UNVERIFIED"

def KOSHER_CONFIRMED : String := "KOSHER_CONFIRMED"
def NOT_KOSHER : String := "NOT_KOSHER"
def REQUIRES_CERTIFICATION : String := "REQUIRES_CERTIFICATION"

def COMPLIANT : String := "COMPLIANT"
def NOT_COMPLIANT : String := "NOT_COMPLIANT"
def UNCERTAIN : String := "UNCERTAIN"

def CONF_HIGH : String := "HIGH"
def CONF_MED : String := "MEDIUM"
def CONF_LOW : String := "LOW"

/-! ## Halal engine (halal.py) -/

/-- Result of `get_enumber_status` (halal.py). -/
structure ENumStatus where
  status : Option String
  details : Option ENumEntry
deriving DecidableEq, Repr

/-- `get_enumber_status` (halal.py): three-tier registry lookup. -/
def get_enumber_status (eNum : String) : ENumStatus :=
  match List.lookup eNum E_NUMBERS_CONFIG.always_haram with
  | some d => ⟨some "HARAM", some d⟩
  | none =>
    match List.lookup eNum E_NUMBERS_CONFIG.source_dependent with
    | some d => ⟨some "MUSHBOOH", some d⟩
    | none =>
      match List.lookup eNum E_NUMBERS_CONFIG.halal with
      | some d => ⟨some "HALAL", some d⟩
      | none => ⟨none, none⟩

/-- `check_alcohol_status` (halal.py): halal alternatives and low-risk
fermented products are checked first, then the haram tiers. -/
def check_alcohol_status (text : String) : CheckResult :=
  let textLower := normalize_text text
  let hit : AlcoholSection → Bool := fun sec => sec.terms.any (fun t => word_in_text textLower t)
  if hit ALCOHOL_CONFIG.halal_alternatives then
    ⟨some "HALAL", some ALCOHOL_CONFIG.halal_alternatives.reason_code, some ALCOHOL_CONFIG.halal_alternatives.reason⟩
  else if hit ALCOHOL_CONFIG.low_risk_fermented then
    ⟨some "HALAL", some ALCOHOL_CONFIG.low_risk_fermented.reason_code, some ALCOHOL_CONFIG.low_risk_fermented.reason⟩
  else if hit ALCOHOL_CONFIG.explicit_alcohols then
    ⟨some "HARAM", some ALCOHOL_CONFIG.explicit_alcohols.reason_code, some ALCOHOL_CONFIG.explicit_alcohols.reason⟩
  else if hit ALCOHOL_CONFIG.alcoholic_beverages then
    ⟨some "HARAM", some ALCOHOL_CONFIG.alcoholic_beverages.reason_code, some ALCOHOL_CONFIG.alcoholic_beverages.reason⟩
  else if hit ALCOHOL_CONFIG.alcohol_processing then
    ⟨some "HARAM", some ALCOHOL_CONFIG.alcohol_processing.reason_code, some ALCOHOL_CONFIG.alcohol_processing.reason⟩
  else if hit ALCOHOL_CONFIG.high_risk_extracts then
    ⟨some "HARAM", some ALCOHOL_CONFIG.high_risk_extracts.reason_code, some ALCOHOL_CONFIG.high_risk_extracts.reason⟩
  else ⟨none, none, none⟩

/-- `check_animal_derivative_status` (halal.py): always-haram categories,
then source-dependent categories (specific source before per-category
default), then processed dairy, starter cultures and other animal-derived
categories. -/
def check_animal_derivative_status (text : String) : CheckResult :=
  let textLower := normalize_text text
  let anyTerm : List String → Bool := fun ts => ts.any (fun t => word_in_text textLower t)
  match ANIMAL_DERIVATIVES_CONFIG.always_haram.find? (fun cd => anyTerm cd.2.terms) with
  | some cd => ⟨some "HARAM", some cd.2.reason_code, some cd.2.reason⟩
  | none =>
  match ANIMAL_DERIVATIVES_CONFIG.source_dependent.find? (fun cd => anyTerm cd.2.generic_terms) with
  | some cd =>
    match cd.2.sources.find? (fun sd => anyTerm sd.2.terms) with
    | some sd =>
      ⟨some sd.2.status,
       some (cd.1 ++ "_" ++ sd.1 ++ "_" ++ strLower sd.2.status),
       some sd.2.reason⟩
    | none => ⟨some cd.2.default_status, some cd.2.reason_code, some cd.2.default_reason⟩
  | none =>
  let dairy := ANIMAL_DERIVATIVES_CONFIG.processed_dairy
  if anyTerm dairy.terms then
    if anyTerm dairy.halal_qualifiers then
      ⟨some "HALAL", some "dairy_halal_qualified", some "Dairy with halal qualifier detected"⟩
    else ⟨some dairy.default_status, some dairy.reason_code, some dairy.reason⟩
  else
  let culture := ANIMAL_DERIVATIVES_CONFIG.starter_cultures
  if anyTerm culture.terms then
    ⟨some culture.default_status, some culture.reason_code, some culture.reason⟩
  else
  match ANIMAL_DERIVATIVES_CONFIG.other_animal_derived.find? (fun cd => anyTerm cd.2.terms) with
  | some cd => ⟨some cd.2.default_status, some cd.2.reason_code, some cd.2.reason⟩
  | none => ⟨none, none, none⟩

/-- `check_halal_certification` (halal.py): named certifiers, then generic
strong terms, then certification phrases, then weak signals. -/
def check_halal_certification (text : String) : CertResult :=
  let textLower := normalize_text text
  let anyTerm : List String → Bool := fun ts => ts.any (fun t => word_in_text textLower t)
  match CERTIFIERS_CONFIG.strong_certifiers.findSome?
      (fun rc => (rc.2.find? (fun cd => anyTerm cd.2.terms)).map (fun cd => (rc.1, cd.2))) with
  | some rc => ⟨rc.2.strength, some rc.2.full_name, some rc.1⟩
  | none =>
  if anyTerm CERTIFIERS_CONFIG.generic_strong_terms then
    ⟨"HIGH", some "Generic halal certification", none⟩
  else if anyTerm CERTIFIERS_CONFIG.certification_phrases_strong then
    ⟨"MEDIUM", some "Certification phrase detected", none⟩
  else if anyTerm CERTIFIERS_CONFIG.weak_signals_terms then
    ⟨"WEAK", none, none⟩
  else ⟨"NONE", none, none⟩

/-- `is_inherently_halal` (halal.py). -/
def is_inherently_halal (ing : String) : Bool :=
  any_word_in_text ing INHERENTLY_HALAL_PLANT_SIMPLE

/-- Accumulator threaded through `evaluate_halal_strict`: the `reasons` and
`evidence` lists and the intermediate `status` variable (the latter is
overwritten unconditionally by the final status computation). -/
structure HalalAcc where
  reasons : List String
  evidence : List String
  status : Option String
deriving DecidableEq, Repr

/-- Is a reason code mushbooh-tagged (final status computation, halal.py)? -/
def isMushboohCode (rc : String) : Bool :=
  strContains rc "mushbooh" || strContains rc "unverified" || strContains rc "source_unknown"

/-- The E-number loop of `evaluate_halal_strict` (step 3): an always-haram
E-number returns immediately, a source-dependent one appends a provisional
signal. -/
def halalEnumberLoop (ingRaw : String) : List String → HalalAcc → Except IngredientResult HalalAcc
  | [], acc => .ok acc
  | e :: es, acc =>
    let result := get_enumber_status e
    if result.status = some "HARAM" ∧ result.details.isSome then
      let details := result.details.getD ⟨"", "", none⟩
      .error ⟨ingRaw, HARAM, CONF_HIGH,
        [details.reason_code.getD ("e" ++ e ++ "_haram")],
        ["Detected E" ++ e ++ " (" ++ details.name ++ ") - " ++ details.reason]⟩
    else if result.status = some "MUSHBOOH" ∧ result.details.isSome then
      let details := result.details.getD ⟨"", "", none⟩
      halalEnumberLoop ingRaw es
        ⟨acc.reasons ++ [details.reason_code.getD ("e" ++ e ++ "_source_unknown")],
         acc.evidence ++ ["Detected E" ++ e ++ " (" ++ details.name ++ ") - " ++ details.reason],
         acc.status⟩
    else halalEnumberLoop ingRaw es acc

/-- Step 4 of `evaluate_halal_strict` (halal.py): the alcohol check. -/
def halalAlcoholStep (ingRaw ing : String) (strongCert : Bool) (acc : HalalAcc) :
    Except IngredientResult HalalAcc :=
  let alcoholResult := check_alcohol_status ing
  if alcoholResult.status = some "HALAL" then
    .ok ⟨acc.reasons ++ [alcoholResult.reason_code.getD ""],
         acc.evidence ++ [alcoholResult.reason.getD ""], acc.status⟩
  else if alcoholResult.status = some "HARAM" then
    if strongCert then
      .ok ⟨acc.reasons ++ ["alcohol_related_term_present_but_halal_cert_claim"],
           acc.evidence ++ [alcoholResult.reason.getD "" ++ "; but strong halal certification detected"],
           acc.status⟩
    else
      .error ⟨ingRaw, HARAM, CONF_HIGH, [alcoholResult.reason_code.getD ""], [alcoholResult.reason.getD ""]⟩
  else .ok acc

/-- Step 5 of `evaluate_halal_strict` (halal.py): the gelatin check (both
spellings, and E441). -/
def halalGelatinStep (ingRaw ing : String) (acc : HalalAcc) : Except IngredientResult HalalAcc :=
  if word_in_text ing "gelatin" || word_in_text ing "gelatine" || (extract_enumbers ing).contains "441" then
    if any_word_in_text ing ["porcine", "pig", "swine", "pork"] then
      .error ⟨ingRaw, HARAM, CONF_HIGH, ["haram_porcine_gelatin"], ["Porcine gelatin detected"]⟩
    else if strContains ing "(halal)" ||
        any_word_in_text ing ["halal gelatin", "halal gelatine", "gelatin (halal)", "gelatine (halal)"] then
      .error ⟨ingRaw, HALAL_CONFIRMED, CONF_HIGH, ["halal_gelatin_explicit"], ["Gelatin explicitly labeled halal"]⟩
    else if any_word_in_text ing ["fish gelatin", "fish gelatine", "marine gelatin", "marine gelatine"] then
      .error ⟨ingRaw, HALAL_CONFIRMED, CONF_HIGH, ["fish_gelatin"], ["Fish-derived gelatin"]⟩
    else if any_word_in_text ing ["bovine gelatin", "bovine gelatine", "beef gelatin", "beef gelatine"] then
      .ok ⟨acc.reasons ++ ["bovine_gelatin_unverified"],
           acc.evidence ++ ["Bovine gelatin without explicit halal certification"], some MUSHBOOH⟩
    else .ok acc
  else .ok acc

/-- Step 6 of `evaluate_halal_strict` (halal.py): the lecithin check. -/
def halalLecithinStep (ingRaw ing orig : String) (strongCert : Bool) (acc : HalalAcc) :
    Except IngredientResult HalalAcc :=
  let lecithinResult := if orig ≠ "" then detect_lecithin_source_combined orig ing else detect_lecithin_source ing
  if lecithinResult.is_lecithin then
    let source := lecithinResult.source.getD "unspecified"
    if source = "sunflower" then
      .error ⟨ingRaw, HALAL_CONFIRMED, CONF_HIGH, ["sunflower_lecithin_halal"], ["Sunflower lecithin - plant-based, halal"]⟩
    else if source = "soy" then
      if strongCert then
        .error ⟨ingRaw, HALAL_CONFIRMED, CONF_HIGH, ["soy_lecithin_certified_halal"], ["Soy lecithin with halal certification"]⟩
      else
        .error ⟨ingRaw, NOT_HALAL_UNVERIFIED, CONF_MED, ["soy_lecithin_unverified_mushbooh"], ["Soy lecithin - processing may involve alcohol"]⟩
    else if source = "rapeseed" then
      .error ⟨ingRaw, HALAL_CONFIRMED, CONF_HIGH, ["rapeseed_lecithin_halal"], ["Rapeseed lecithin - plant-based, halal"]⟩
    else if source = "egg" then
      .error ⟨ingRaw, HALAL_CONFIRMED, CONF_HIGH, ["egg_lecithin_halal"], ["Egg lecithin - halal"]⟩
    else if strongCert then
      .ok ⟨acc.reasons ++ ["lecithin_unspecified_but_certified"],
           acc.evidence ++ ["Lecithin source unspecified, but product has halal certification"], acc.status⟩
    else
      .ok ⟨acc.reasons ++ ["lecithin_source_unspecified_mushbooh"],
           acc.evidence ++ ["Lecithin source not specified"], some MUSHBOOH⟩
  else .ok acc

/-- Step 7 of `evaluate_halal_strict` (halal.py): natural flavors (only a
provisional signal, never a dispositive return). -/
def halalFlavorStep (ing : String) (acc : HalalAcc) : HalalAcc :=
  if any_word_in_text ing ["natural flavor", "natural flavour"] then
    ⟨acc.reasons ++ ["natural_flavour_source_unknown_mushbooh"],
     acc.evidence ++ ["Natural flavours have undisclosed sources"], some MUSHBOOH⟩
  else acc

/-- Steps 1–7 of `evaluate_halal_strict` (halal.py): each dispositive match
returns (`.error`), each provisional signal appends to the accumulator. -/
def halalScan (ingRaw ing orig : String) (strongCert : Bool) : Except IngredientResult HalalAcc :=
  -- 1) animal derivatives
  let animalResult := check_animal_derivative_status ing
  if animalResult.status = some "HARAM" then
    .error ⟨ingRaw, HARAM, CONF_HIGH, [animalResult.reason_code.getD ""], [animalResult.reason.getD ""]⟩
  else
  let acc1 : HalalAcc :=
    if animalResult.status = some "MUSHBOOH" then
      if strongCert then
        ⟨[animalResult.reason_code.getD "" ++ "_but_certified"],
         [animalResult.reason.getD "" ++ "; but strong halal certification detected"], none⟩
      else ⟨[animalResult.reason_code.getD ""], [animalResult.reason.getD ""], none⟩
    else ⟨[], [], none⟩
  let acc2 : HalalAcc :=
    if animalResult.status = some "HALAL" then
      ⟨acc1.reasons ++ [animalResult.reason_code.getD ""],
       acc1.evidence ++ [animalResult.reason.getD ""], acc1.status⟩
    else acc1
  -- 2) colorants
  if any_word_in_text ing HARAM_COLORANTS ∧ ¬ acc2.reasons.any (fun rc => strContains rc "insect") then
    .error ⟨ingRaw, HARAM, CONF_HIGH, ["haram_carmine_cochineal"], ["Detected carmine/cochineal (E120)"]⟩
  else
  -- 3) E-numbers
  match halalEnumberLoop ingRaw (extract_enumbers ing) acc2 with
  | .error r => .error r
  | .ok acc3 =>
  match halalAlcoholStep ingRaw ing strongCert acc3 with
  | .error r => .error r
  | .ok acc4 =>
  match halalGelatinStep ingRaw ing acc4 with
  | .error r => .error r
  | .ok acc5 =>
  match halalLecithinStep ingRaw ing orig strongCert acc5 with
  | .error r => .error r
  | .ok acc6 => .ok (halalFlavorStep ing acc6)

/-- Final status computation and strict-mode remap of `evaluate_halal_strict`. -/
def halalFinalize (ingRaw ing : String) (acc : HalalAcc) (strongCert weakCert strictMode : Bool) :
    IngredientResult :=
  let p : String × String × List String × List String :=
    if strongCert then (HALAL_CONFIRMED, CONF_HIGH, acc.reasons, acc.evidence)
    else if acc.reasons.any (fun rc => strContains rc "haram_" || strEndsWith rc "_haram") then
      (HARAM, CONF_HIGH, acc.reasons, acc.evidence)
    else if acc.reasons.any isMushboohCode then
      let mushboohReasons := acc.reasons.filter isMushboohCode
      let halalReasons := acc.reasons.filter (fun rc => strEndsWith rc "_halal" || strContains (strLower rc) "halal")
      if halalReasons ≠ [] ∧ mushboohReasons.length ≤ halalReasons.length then
        (HALAL_CONFIRMED, CONF_HIGH, acc.reasons, acc.evidence)
      else (MUSHBOOH, if weakCert then CONF_MED else CONF_LOW, acc.reasons, acc.evidence)
    else if acc.reasons.any (fun rc => strEndsWith rc "_halal") then
      (HALAL_CONFIRMED, CONF_HIGH, acc.reasons, acc.evidence)
    else if is_inherently_halal ing then
      (HALAL_CONFIRMED, CONF_HIGH, acc.reasons ++ ["inherently_halal_by_nature"],
       acc.evidence ++ ["Plant-based ingredient; halal by default"])
    else
      (HALAL_CONFIRMED, CONF_MED, acc.reasons ++ ["no_haram_indicators_detected"],
       acc.evidence ++ ["No haram indicators detected; default halal"])
  match p with
  | (status, confidence, reasons, evidence) =>
    let finalStatus := if strictMode ∧ status = MUSHBOOH then NOT_HALAL_UNVERIFIED else status
    ⟨ingRaw, finalStatus, confidence, dedupe reasons, dedupe evidence⟩

/-- The certification result computed by `evaluate_halal_strict` for a given
ingredient argument. -/
def halalCertOf (ingredientText : Option String) : CertResult :=
  check_halal_certification (normalize_text (ingredientText.getD ""))

/-- The scan phase of `evaluate_halal_strict` for given arguments. -/
def halalScanOf (ingredientText originalText : Option String) : Except IngredientResult HalalAcc :=
  let ingRaw := ingredientText.getD ""
  let ing := normalize_text ingRaw
  let orig := normalize_text (originalText.getD "")
  let cert := halalCertOf ingredientText
  halalScan ingRaw ing orig (cert.strength = "HIGH" ∨ cert.strength = "MEDIUM")

/-- `evaluate_halal_strict` (halal.py): `None` arguments are coerced to the
empty string as in the source (`ingredient_text or ""`). -/
def evaluate_halal_strict (ingredientText : Option String) (strictMode : Bool)
    (originalText : Option String) : IngredientResult :=
  let ingRaw := ingredientText.getD ""
  let ing := normalize_text ingRaw
  let cert := halalCertOf ingredientText
  let strongCert : Bool := cert.strength = "HIGH" ∨ cert.strength = "MEDIUM"
  let weakCert : Bool := cert.strength = "WEAK"
  match halalScanOf ingredientText originalText with
  | .error r => r
  | .ok acc => halalFinalize ingRaw ing acc strongCert weakCert strictMode

/-- `aggregate_product_halal` (halal.py). -/
def aggregate_product_halal (ingredientResults : List IngredientResult) (strictMode : Bool) :
    ProductVerdict :=
  let haramHits := ingredientResults.filter (fun r => r.status == HARAM)
  let mushboohHits := ingredientResults.filter
    (fun r => r.status == MUSHBOOH || r.status == NOT_HALAL_UNVERIFIED)
  if haramHits ≠ [] then
    ⟨"HARAM", CONF_HIGH, "Contains explicitly haram ingredient(s).",
     haramHits.map (fun r => r.ingredient),
     sortedDedup (haramHits.flatMap (fun r => r.reason_codes))⟩
  else if strictMode ∧ mushboohHits ≠ [] then
    ⟨"NOT_HALAL_UNVERIFIED", CONF_LOW, "Contains ingredient(s) with unverified halal source or processing.",
     mushboohHits.map (fun r => r.ingredient),
     sortedDedup (mushboohHits.flatMap (fun r => r.reason_codes))⟩
  else
    ⟨"HALAL", CONF_MED, "All detected ingredients are verified halal at ingredient level.", [], []⟩

/-! ## Kosher engine (kosher.py) -/

/-- `has_kosher_certification` (kosher.py). -/
def has_kosher_certification (text : String) : Bool :=
  let textLower := normalize_text text
  KOSHER_CERTIFICATIONS.any (fun cert => word_in_text textLower cert)

/-- `is_kosher_safe_ingredient` (kosher.py). -/
def is_kosher_safe_ingredient (text : String) : Bool :=
  let textLower := normalize_text text
  KOSHER_SAFE_INGREDIENTS.any (fun safe => word_in_text textLower safe)

/-- The source-dependent loop of `evaluate_kosher_strict` (step 7): for each
category whose generic terms match, either record a provisional signal and
continue, or return a dispositive result. -/
def kosherSourceLoop (ingRaw ing : String) (hasCert : Bool) :
    List (String × KosherSourceDep) → List String × List String →
    Except IngredientResult (List String × List String)
  | [], acc => .ok acc
  | (ingType, config) :: rest, acc =>
    if config.terms.any (fun t => word_in_text ing t) then
      if config.kosher_terms.any (fun t => word_in_text ing t) then
        kosherSourceLoop ingRaw ing hasCert rest
          (acc.1 ++ [ingType ++ "_kosher"], acc.2 ++ ["Kosher " ++ ingType ++ " source confirmed"])
      else if config.not_kosher_terms.any (fun t => word_in_text ing t) then
        .error ⟨ingRaw, NOT_KOSHER, CONF_HIGH, [ingType ++ "_not_kosher"],
                ["Non-kosher " ++ ingType ++ " source"]⟩
      else if is_kosher_safe_ingredient ing then
        kosherSourceLoop ingRaw ing hasCert rest
          (acc.1 ++ [ingType ++ "_plant_source_likely"],
           acc.2 ++ [titleStr ingType ++ " appears to be plant-derived"])
      else if hasCert then
        kosherSourceLoop ingRaw ing hasCert rest
          (acc.1 ++ [ingType ++ "_certified"],
           acc.2 ++ [titleStr ingType ++ " with kosher certification"])
      else if ingType = "gelatin" then
        .error ⟨ingRaw, REQUIRES_CERTIFICATION, CONF_LOW, [ingType ++ "_source_unknown"],
                [titleStr ingType ++ " source unknown - may be animal-derived"]⟩
      else
        kosherSourceLoop ingRaw ing hasCert rest
          (acc.1 ++ [ingType ++ "_likely_plant"],
           acc.2 ++ [titleStr ingType ++ " (commonly plant-derived in modern food)"])
    else kosherSourceLoop ingRaw ing hasCert rest acc

/-- Steps 8–9 of `evaluate_kosher_strict` (kosher.py): the dairy / meat
indicators and the final status computation. -/
def kosherFinalize (ingRaw ing : String) (hasCert : Bool) (acc1 : List String × List String) :
    IngredientResult :=
  let isDairy := any_word_in_text ing ["milk", "cream", "cheese", "butter", "whey", "casein", "lactose"]
  let isMeat := any_word_in_text ing ["beef", "chicken", "lamb", "turkey", "meat", "poultry"]
  let acc2 : List String × List String :=
    if isDairy then
      (acc1.1 ++ ["dairy_ingredient"], acc1.2 ++ ["Dairy ingredient (affects meat/dairy separation)"])
    else acc1
  if isMeat ∧ ¬ hasCert then
    ⟨ingRaw, REQUIRES_CERTIFICATION, CONF_MED,
     acc2.1 ++ ["meat_requires_certification"],
     acc2.2 ++ ["Meat ingredient requires kosher slaughter verification"]⟩
  else
  let acc3 : List String × List String :=
    if isMeat then
      (acc2.1 ++ ["meat_kosher_certified"], acc2.2 ++ ["Meat ingredient with kosher certification"])
    else acc2
  -- final status
  if hasCert then
    ⟨ingRaw, KOSHER_CONFIRMED, CONF_HIGH,
     (if acc3.1 ≠ [] then acc3.1 else ["kosher_certified"]),
     (if acc3.2 ≠ [] then acc3.2 else ["Kosher certification detected"])⟩
  else if acc3.1 ≠ [] then
    ⟨ingRaw, KOSHER_CONFIRMED, CONF_MED, dedupe acc3.1, dedupe acc3.2⟩
  else if is_kosher_safe_ingredient ing then
    ⟨ingRaw, KOSHER_CONFIRMED, CONF_HIGH, ["plant_based_kosher"], ["Plant-based ingredient, inherently kosher"]⟩
  else
    ⟨ingRaw, KOSHER_CONFIRMED, CONF_MED, ["no_kosher_concerns"], ["No kosher concerns detected"]⟩

/-- `evaluate_kosher_strict` (kosher.py). -/
def evaluate_kosher_strict (ingredientText : Option String) : IngredientResult :=
  let ingRaw := ingredientText.getD ""
  let ing := normalize_text ingRaw
  let hasCert := has_kosher_certification ing
  -- 1) forbidden land animals
  if any_word_in_text ing FORBIDDEN_LAND_ANIMALS then
    ⟨ingRaw, NOT_KOSHER, CONF_HIGH, ["forbidden_land_animal"],
     ["Contains forbidden land animal (non-kosher species)"]⟩
  else
  -- 2) forbidden seafood
  if any_word_in_text ing FORBIDDEN_SEAFOOD then
    ⟨ingRaw, NOT_KOSHER, CONF_HIGH, ["forbidden_seafood"], ["Contains forbidden seafood (no fins/scales)"]⟩
  else
  -- 3) insect-derived
  if any_word_in_text ing INSECT_DERIVED then
    ⟨ingRaw, NOT_KOSHER, CONF_HIGH, ["insect_derived"], ["Contains insect-derived ingredient"]⟩
  else
  -- 4) blood products
  if any_word_in_text ing BLOOD_PRODUCTS then
    ⟨ingRaw, NOT_KOSHER, CONF_HIGH, ["blood_product"], ["Contains blood product"]⟩
  else
  -- 5) grape products
  let grapeHit := any_word_in_text ing GRAPE_PRODUCTS
  if grapeHit ∧ ¬ hasCert then
    ⟨ingRaw, REQUIRES_CERTIFICATION, CONF_MED, ["grape_product_requires_supervision"],
     ["Grape/wine product requires kosher supervision"]⟩
  else
  let acc0 : List String × List String :=
    if grapeHit then (["grape_product_certified"], ["Grape product with kosher certification"])
    else ([], [])
  -- 6) meat-dairy mix
  if any_word_in_text ing MEAT_DAIRY_MIX then
    ⟨ingRaw, NOT_KOSHER, CONF_HIGH, ["meat_dairy_combination"], ["Contains meat and dairy combination"]⟩
  else
  -- 7) source-dependent ingredients
  match kosherSourceLoop ingRaw ing hasCert SOURCE_DEPENDENT_KOSHER acc0 with
  | .error r => r
  | .ok acc1 => kosherFinalize ingRaw ing hasCert acc1

/-- `kosher_tags` (kosher.py): dairy/meat/pareve tags derived from the
evidence strings. -/
def kosher_tags (result : IngredientResult) : List String :=
  let evidenceStr := lowerL (String.intercalate " " result.evidence).data
  let tags :=
    (if containsSub evidenceStr "dairy".data then ["dairy"] else []) ++
    (if containsSub evidenceStr "meat".data || containsSub evidenceStr "poultry".data then ["meat"] else [])
  if tags = [] then ["pareve"] else tags

/-- `aggregate_product_kosher` (kosher.py). -/
def aggregate_product_kosher (ingredientResults : List IngredientResult) : ProductVerdict :=
  let notKosherHits := ingredientResults.filter (fun r => r.status == NOT_KOSHER)
  let requiresCertHits := ingredientResults.filter (fun r => r.status == REQUIRES_CERTIFICATION)
  let hasDairy := ingredientResults.any (fun r => (kosher_tags r).contains "dairy")
  let hasMeat := ingredientResults.any (fun r => (kosher_tags r).contains "meat")
  if notKosherHits ≠ [] then
    ⟨NOT_KOSHER, CONF_HIGH, "Contains non-kosher ingredient(s).",
     notKosherHits.map (fun r => r.ingredient),
     sortedDedup (notKosherHits.flatMap (fun r => r.reason_codes))⟩
  else if hasDairy ∧ hasMeat then
    ⟨NOT_KOSHER, CONF_HIGH, "Contains both meat and dairy ingredients.", [], ["meat_dairy_combination"]⟩
  else if requiresCertHits ≠ [] then
    ⟨REQUIRES_CERTIFICATION, CONF_LOW, "Contains ingredient(s) requiring kosher certification verification.",
     requiresCertHits.map (fun r => r.ingredient),
     sortedDedup (requiresCertHits.flatMap (fun r => r.reason_codes))⟩
  else
    ⟨KOSHER_CONFIRMED, CONF_MED, "All detected ingredients appear kosher.", [], []⟩

/-! ## Vegan / vegetarian / pescetarian engines (diets.py) -/

/-- `evaluate_vegan` (diets.py). -/
def evaluate_vegan (ingredientText : Option String) : IngredientResult :=
  let ingRaw := ingredientText.getD ""
  let ing := normalize_text ingRaw
  if any_word_in_text ing VEGAN_SAFE_VERSIONS then
    ⟨ingRaw, COMPLIANT, CONF_HIGH, ["explicitly_vegan"], ["Explicitly vegan/plant-based ingredient"]⟩
  else if any_word_in_text ing MEAT_INGREDIENTS then
    ⟨ingRaw, NOT_COMPLIANT, CONF_HIGH, ["contains_meat"], ["Contains meat - not vegan"]⟩
  else if any_word_in_text ing FISH_SEAFOOD_INGREDIENTS then
    ⟨ingRaw, NOT_COMPLIANT, CONF_HIGH, ["contains_seafood"], ["Contains fish/seafood - not vegan"]⟩
  else if any_word_in_text ing DAIRY_INGREDIENTS then
    ⟨ingRaw, NOT_COMPLIANT, CONF_HIGH, ["contains_dairy"], ["Contains dairy - not vegan"]⟩
  else if any_word_in_text ing EGG_INGREDIENTS then
    ⟨ingRaw, NOT_COMPLIANT, CONF_HIGH, ["contains_egg"], ["Contains egg - not vegan"]⟩
  else if any_word_in_text ing BEE_PRODUCTS then
    ⟨ingRaw, NOT_COMPLIANT, CONF_HIGH, ["contains_bee_product"], ["Contains honey/bee product - not vegan"]⟩
  else if any_word_in_text ing ANIMAL_DERIVED_ADDITIVES then
    ⟨ingRaw, NOT_COMPLIANT, CONF_HIGH, ["animal_derived_additive"], ["Contains animal-derived additive"]⟩
  else if any_word_in_text ing POSSIBLY_ANIMAL_DERIVED then
    ⟨ingRaw, UNCERTAIN, CONF_LOW, ["possibly_animal_derived"], ["May be animal-derived - source unclear"]⟩
  else
    ⟨ingRaw, COMPLIANT, CONF_HIGH, ["plant_based"], ["Plant-based ingredient"]⟩

/-- `evaluate_vegetarian` (diets.py). -/
def evaluate_vegetarian (ingredientText : Option String) : IngredientResult :=
  let ingRaw := ingredientText.getD ""
  let ing := normalize_text ingRaw
  if any_word_in_text ing ["vegetarian", "vegan", "plant-based"] then
    ⟨ingRaw, COMPLIANT, CONF_HIGH, ["explicitly_vegetarian"], ["Explicitly vegetarian/plant-based"]⟩
  else if any_word_in_text ing MEAT_INGREDIENTS then
    ⟨ingRaw, NOT_COMPLIANT, CONF_HIGH, ["contains_meat"], ["Contains meat - not vegetarian"]⟩
  else if any_word_in_text ing FISH_SEAFOOD_INGREDIENTS then
    ⟨ingRaw, NOT_COMPLIANT, CONF_HIGH, ["contains_seafood"], ["Contains fish/seafood - not vegetarian"]⟩
  else if any_word_in_text ing
      ["gelatin", "gelatine", "carmine", "cochineal", "e120",
       "isinglass", "animal rennet", "bone char", "bone phosphate",
       "lard", "tallow", "suet"] then
    ⟨ingRaw, NOT_COMPLIANT, CONF_HIGH, ["animal_derived"], ["Contains animal-derived ingredient"]⟩
  else if any_word_in_text ing ["glycerin", "glycerol", "stearic acid", "mono and diglycerides"] then
    if any_word_in_text ing ["vegetable", "plant"] then
      ⟨ingRaw, COMPLIANT, CONF_HIGH, ["plant_derived"], ["Plant-derived source confirmed"]⟩
    else
      ⟨ingRaw, UNCERTAIN, CONF_LOW, ["possibly_animal_derived"], ["May be animal-derived - source unclear"]⟩
  else
    ⟨ingRaw, COMPLIANT, CONF_HIGH, ["vegetarian_compliant"], ["Vegetarian-compliant ingredient"]⟩

/-- `evaluate_pescetarian` (diets.py). -/
def evaluate_pescetarian (ingredientText : Option String) : IngredientResult :=
  let ingRaw := ingredientText.getD ""
  let ing := normalize_text ingRaw
  if any_word_in_text ing MEAT_INGREDIENTS then
    ⟨ingRaw, NOT_COMPLIANT, CONF_HIGH, ["contains_meat"], ["Contains meat - not pescetarian"]⟩
  else if any_word_in_text ing FISH_SEAFOOD_INGREDIENTS then
    ⟨ingRaw, COMPLIANT, CONF_HIGH, ["fish_allowed"], ["Fish/seafood - allowed for pescetarians"]⟩
  else if any_word_in_text ing
      ["lard", "tallow", "suet", "beef gelatin", "pork gelatin", "bone broth", "meat extract"] then
    ⟨ingRaw, NOT_COMPLIANT, CONF_HIGH, ["meat_derived"], ["Derived from land animal - not pescetarian"]⟩
  else if any_word_in_text ing ["gelatin", "gelatine"] then
    if any_word_in_text ing ["fish gelatin"] then
      ⟨ingRaw, COMPLIANT, CONF_HIGH, ["fish_gelatin"], ["Fish gelatin - allowed for pescetarians"]⟩
    else if any_word_in_text ing ["pork", "beef", "meat"] then
      ⟨ingRaw, NOT_COMPLIANT, CONF_HIGH, ["meat_gelatin"], ["Meat-derived gelatin - not pescetarian"]⟩
    else
      ⟨ingRaw, UNCERTAIN, CONF_LOW, ["gelatin_source_unknown"], ["Gelatin source unknown - may be meat-derived"]⟩
  else
    ⟨ingRaw, COMPLIANT, CONF_HIGH, ["pescetarian_compliant"], ["Pescetarian-compliant ingredient"]⟩

/-- `aggregate_diet_results` (diets.py), shared by vegan / vegetarian /
pescetarian aggregation. -/
def aggregate_diet_results (ingredientResults : List IngredientResult) (dietName : String) :
    ProductVerdict :=
  let notCompliant := ingredientResults.filter (fun r => r.status == NOT_COMPLIANT)
  let uncertain := ingredientResults.filter (fun r => r.status == UNCERTAIN)
  if notCompliant ≠ [] then
    ⟨NOT_COMPLIANT, CONF_HIGH, "Contains non-" ++ dietName ++ " ingredient(s).",
     notCompliant.map (fun r => r.ingredient),
     sortedDedup (notCompliant.flatMap (fun r => r.reason_codes))⟩
  else if uncertain ≠ [] then
    ⟨UNCERTAIN, CONF_LOW, "Contains ingredient(s) with uncertain " ++ dietName ++ " status.",
     uncertain.map (fun r => r.ingredient),
     sortedDedup (uncertain.flatMap (fun r => r.reason_codes))⟩
  else
    ⟨COMPLIANT, CONF_HIGH, "All ingredients appear " ++ dietName ++ "-compliant.", [], []⟩

/-! ## Allergen detection (allergens.py) -/

/-- `check_allergy` (allergens.py): first user allergen found in the text;
known allergen families match by term list, unknown ones by direct word
match. -/
def check_allergy (text : String) (userAllergens : List String) : Option String :=
  if text = "" ∨ userAllergens = [] then none
  else
    let textLower := normalize_text text
    userAllergens.findSome? fun allergen =>
      let allergenLower := String.mk (stripL (lowerL allergen.data))
      match List.lookup allergenLower ALLERGENS_CONFIG with
      | some config =>
        if config.terms.any (fun term => word_in_text textLower term) then some config.display
        else none
      | none =>
        if word_in_text textLower allergenLower then some (titleStr allergen) else none

/-! ## Normalisation lemmas

`normalize_text` is idempotent: the engines normalise once in the
evaluator and again inside each checker, and both produce the same text.
The proof goes through commutation of ASCII lowering with stripping and
whitespace collapsing, and fixed-point lemmas for the latter two. -/

theorem char_toNat_ofNat {n : Nat} (h : n.isValidChar) : (Char.ofNat n).toNat = n := by
  rw [Char.ofNat, dif_pos h]
  simp [Char.ofNatAux, Char.toNat, UInt32.toNat]

theorem char_eq_of_toNat_eq {c d : Char} (h : c.toNat = d.toNat) : c = d :=
  Char.ext (UInt32.toNat.inj h)

theorem lowerChar_toNat (c : Char) :
    (lowerChar c).toNat = if 65 ≤ c.toNat ∧ c.toNat ≤ 90 then c.toNat + 32 else c.toNat := by
  unfold lowerChar
  split
  next h =>
    simp only [Bool.and_eq_true, decide_eq_true_eq] at h
    rw [char_toNat_ofNat (Or.inl (by omega)), if_pos h]
  next h =>
    simp only [Bool.and_eq_true, decide_eq_true_eq, not_and] at h
    rw [if_neg]
    intro ⟨h1, h2⟩
    omega

theorem lowerChar_idem (c : Char) : lowerChar (lowerChar c) = lowerChar c := by
  by_cases h : 65 ≤ c.toNat ∧ c.toNat ≤ 90
  · have ht : (lowerChar c).toNat = c.toNat + 32 := by rw [lowerChar_toNat, if_pos h]
    show (if _ then _ else _) = _
    rw [if_neg]
    simp only [ht, Bool.and_eq_true, decide_eq_true_eq]
    omega
  · have hc : lowerChar c = c := by
      unfold lowerChar
      rw [if_neg]
      simp only [Bool.and_eq_true, decide_eq_true_eq]
      exact h
    rw [hc, hc]

theorem char_eq_iff_toNat {c d : Char} : c = d ↔ c.toNat = d.toNat :=
  ⟨fun h => h ▸ rfl, char_eq_of_toNat_eq⟩

theorem isPySpace_toNat (c : Char) :
    isPySpace c = decide (c.toNat = 32 ∨ c.toNat = 9 ∨ c.toNat = 10 ∨ c.toNat = 13 ∨ c.toNat = 11 ∨ c.toNat = 12) := by
  unfold isPySpace
  apply Bool.eq_iff_iff.mpr
  simp only [Bool.or_eq_true, decide_eq_true_eq, char_eq_iff_toNat,
    show (' ' : Char).toNat = 32 from rfl, show ('\t' : Char).toNat = 9 from rfl,
    show ('\n' : Char).toNat = 10 from rfl, show ('\r' : Char).toNat = 13 from rfl,
    show ('\x0b' : Char).toNat = 11 from rfl, show ('\x0c' : Char).toNat = 12 from rfl]
  tauto

theorem isPySpace_lowerChar (c : Char) : isPySpace (lowerChar c) = isPySpace c := by
  rw [isPySpace_toNat, isPySpace_toNat, lowerChar_toNat]
  split
  next h => rw [decide_eq_decide]; omega
  next h => rfl

theorem comp_isPySpace_lowerChar : (isPySpace ∘ lowerChar) = isPySpace :=
  funext isPySpace_lowerChar

theorem lowerL_idem (l : List Char) : lowerL (lowerL l) = lowerL l := by
  simp [lowerL, Function.comp_def, lowerChar_idem]

theorem dropWhile_lowerL (l : List Char) :
    (lowerL l).dropWhile isPySpace = lowerL (l.dropWhile isPySpace) := by
  rw [lowerL, List.dropWhile_map, comp_isPySpace_lowerChar, lowerL]

theorem rdropWhile_lowerL (l : List Char) :
    (lowerL l).rdropWhile isPySpace = lowerL (l.rdropWhile isPySpace) := by
  simp only [List.rdropWhile, lowerL, ← List.map_reverse]
  rw [List.dropWhile_map, comp_isPySpace_lowerChar, List.map_reverse]

theorem stripL_lowerL (l : List Char) : stripL (lowerL l) = lowerL (stripL l) := by
  rw [stripL, stripL, dropWhile_lowerL, rdropWhile_lowerL]

theorem lowerChar_space : lowerChar ' ' = ' ' := rfl

theorem collapseWs_lowerL (l : List Char) :
    collapseWs (lowerL l) = lowerL (collapseWs l) := by
  induction l using collapseWs_induct with
  | nil => simp [collapseWs_nil, lowerL]
  | space c rest h ih =>
    have h' : isPySpace (lowerChar c) = true := by rw [isPySpace_lowerChar]; exact h
    rw [lowerL, List.map_cons, collapseWs_cons_of_pos h', collapseWs_cons_of_pos h,
        List.dropWhile_map, comp_isPySpace_lowerChar]
    rw [lowerL] at ih
    rw [ih]
    simp [lowerL, lowerChar_space]
  | nonspace c rest h ih =>
    have h' : ¬ isPySpace (lowerChar c) = true := by rw [isPySpace_lowerChar]; exact h
    rw [lowerL, List.map_cons, collapseWs_cons_of_neg h', collapseWs_cons_of_neg h]
    rw [lowerL] at ih
    rw [ih]
    simp [lowerL]

theorem lowerL_normalized (l : List Char) :
    lowerL (collapseWs (stripL (lowerL l))) = collapseWs (stripL (lowerL l)) := by
  rw [← collapseWs_lowerL, ← stripL_lowerL, lowerL_idem]

theorem collapseWs_ne_nil {c : Char} {rest : List Char} : collapseWs (c :: rest) ≠ [] := by
  by_cases h : isPySpace c
  · rw [collapseWs_cons_of_pos h]; simp
  · rw [collapseWs_cons_of_neg h]; simp

theorem head?_not_of_dropWhile_fix {p : Char → Bool} {l : List Char}
    (hfix : l.dropWhile p = l) : ∀ x, l.head? = some x → ¬ p x = true := by
  intro x hx hpx
  cases l with
  | nil => simp at hx
  | cons c rest =>
    simp only [List.head?_cons, Option.some.injEq] at hx
    subst hx
    rw [List.dropWhile_cons_of_pos hpx] at hfix
    have hlen := congrArg List.length hfix
    have hle := (List.dropWhile_suffix (p := p) (l := rest)).length_le
    simp at hlen
    omega

theorem dropWhile_fix_of_head? {p : Char → Bool} {l : List Char}
    (h : ∀ x, l.head? = some x → ¬ p x = true) : l.dropWhile p = l := by
  cases l with
  | nil => rfl
  | cons c rest => exact List.dropWhile_cons_of_neg (h c rfl)

theorem rdropWhile_fix_iff {p : Char → Bool} {l : List Char} :
    l.rdropWhile p = l ↔ ∀ x, l.getLast? = some x → ¬ p x = true := by
  constructor
  · intro hfix x hx
    have hrev : l.reverse.dropWhile p = l.reverse := by
      have := congrArg List.reverse hfix
      rwa [List.rdropWhile, List.reverse_reverse] at this
    exact head?_not_of_dropWhile_fix hrev x (by rwa [List.head?_reverse])
  · intro h
    rw [List.rdropWhile, List.reverse_eq_iff]
    apply dropWhile_fix_of_head?
    intro x hx
    exact h x (by rwa [List.head?_reverse] at hx)

theorem head?_of_prefix {l₁ l₂ : List Char} (hp : l₁ <+: l₂) (hne : l₁ ≠ []) :
    l₂.head? = l₁.head? := by
  obtain ⟨t, rfl⟩ := hp
  cases l₁ with
  | nil => exact absurd rfl hne
  | cons c r => rfl

theorem getLast?_of_suffix {l₁ l₂ : List Char} (hp : l₁ <:+ l₂) (hne : l₁ ≠ []) :
    l₂.getLast? = l₁.getLast? := by
  rw [← List.head?_reverse, ← List.head?_reverse]
  exact head?_of_prefix (by obtain ⟨t, rfl⟩ := hp; simp) (by simpa using hne)

theorem getLast?_cons_of_ne_nil {c : Char} {rest : List Char} (hne : rest ≠ []) :
    (c :: rest).getLast? = rest.getLast? :=
  getLast?_of_suffix ⟨[c], rfl⟩ hne

theorem dropWhile_collapseWs (l : List Char) (hl : l.dropWhile isPySpace = l) :
    (collapseWs l).dropWhile isPySpace = collapseWs l := by
  cases l with
  | nil => simp [collapseWs_nil]
  | cons c rest =>
    have hc : ¬ isPySpace c = true := head?_not_of_dropWhile_fix hl c rfl
    rw [collapseWs_cons_of_neg hc, List.dropWhile_cons_of_neg hc]

theorem rdropWhile_cons_of_fix {p : Char → Bool} {Y : List Char} (a : Char)
    (hne : Y ≠ []) (hfix : Y.rdropWhile p = Y) : (a :: Y).rdropWhile p = a :: Y := by
  rw [rdropWhile_fix_iff] at hfix ⊢
  intro x hx
  rw [getLast?_cons_of_ne_nil hne] at hx
  exact hfix x hx

theorem rdropWhile_collapseWs (l : List Char) :
    l.rdropWhile isPySpace = l → (collapseWs l).rdropWhile isPySpace = collapseWs l := by
  induction l using collapseWs_induct with
  | nil => intro _; simp [collapseWs_nil]
  | space c rest h ih =>
    intro hl
    rw [rdropWhile_fix_iff] at hl
    have hrest_ne : rest ≠ [] := by
      intro he
      subst he
      exact hl c rfl h
    have hrest_last : ∀ x, rest.getLast? = some x → ¬ isPySpace x = true := by
      intro x hx
      exact hl x (by rwa [getLast?_cons_of_ne_nil hrest_ne])
    have hX_ne : rest.dropWhile isPySpace ≠ [] := by
      intro he
      rw [List.dropWhile_eq_nil_iff] at he
      obtain ⟨x, hx⟩ := Option.isSome_iff_exists.mp (List.getLast?_isSome.mpr hrest_ne)
      exact hrest_last x hx (he x (List.mem_of_getLast?_eq_some hx))
    have hX_fix : (rest.dropWhile isPySpace).rdropWhile isPySpace = rest.dropWhile isPySpace := by
      rw [rdropWhile_fix_iff]
      intro x hx
      apply hrest_last x
      rw [getLast?_of_suffix (List.dropWhile_suffix isPySpace) hX_ne]
      exact hx
    have hY := ih hX_fix
    have hY_ne : collapseWs (rest.dropWhile isPySpace) ≠ [] := by
      obtain ⟨x, xs, hxx⟩ := List.exists_cons_of_ne_nil hX_ne
      rw [hxx]
      exact collapseWs_ne_nil
    rw [collapseWs_cons_of_pos h]
    exact rdropWhile_cons_of_fix _ hY_ne hY
  | nonspace c rest h ih =>
    intro hl
    rw [collapseWs_cons_of_neg h]
    by_cases hrest_ne : rest = []
    · subst hrest_ne
      simp only [collapseWs_nil]
      rw [rdropWhile_fix_iff]
      intro x hx
      simp only [List.getLast?_singleton, Option.some.injEq] at hx
      subst hx
      exact h
    · rw [rdropWhile_fix_iff] at hl
      have hrest_fix : rest.rdropWhile isPySpace = rest := by
        rw [rdropWhile_fix_iff]
        intro x hx
        exact hl x (by rwa [getLast?_cons_of_ne_nil hrest_ne])
      have hY := ih hrest_fix
      have hY_ne : collapseWs rest ≠ [] := by
        obtain ⟨r, rs, hx⟩ := List.exists_cons_of_ne_nil hrest_ne
        rw [hx]
        exact collapseWs_ne_nil
      exact rdropWhile_cons_of_fix _ hY_ne hY

theorem collapseWs_idem (l : List Char) : collapseWs (collapseWs l) = collapseWs l := by
  induction l using collapseWs_induct with
  | nil => simp [collapseWs_nil]
  | space c rest h ih =>
    rw [collapseWs_cons_of_pos h]
    have hXfix : (rest.dropWhile isPySpace).dropWhile isPySpace = rest.dropWhile isPySpace :=
      List.dropWhile_idempotent _ _
    have hhead := dropWhile_collapseWs _ hXfix
    rw [collapseWs_cons_of_pos (by decide : isPySpace ' ' = true), hhead, ih]
  | nonspace c rest h ih =>
    rw [collapseWs_cons_of_neg h, collapseWs_cons_of_neg h, ih]

theorem stripL_collapseWs_stripL (m : List Char) :
    stripL (collapseWs (stripL m)) = collapseWs (stripL m) := by
  have h1 : (stripL m).dropWhile isPySpace = stripL m := by
    apply dropWhile_fix_of_head?
    intro x hx
    have hpref : stripL m <+: m.dropWhile isPySpace := by
      rw [stripL]
      exact List.rdropWhile_prefix _ _
    have hne : stripL m ≠ [] := by
      intro he
      rw [he] at hx
      simp at hx
    have hhead : (m.dropWhile isPySpace).head? = (stripL m).head? :=
      head?_of_prefix hpref hne
    apply head?_not_of_dropWhile_fix (List.dropWhile_idempotent _ _) x
    rw [hhead]
    exact hx
  have h2 : (stripL m).rdropWhile isPySpace = stripL m := List.rdropWhile_idempotent _ _
  rw [stripL, dropWhile_collapseWs _ h1, rdropWhile_collapseWs _ h2]

theorem normalize_text_idem (s : String) :
    normalize_text (normalize_text s) = normalize_text s := by
  unfold normalize_text
  split
  next => simp
  next h =>
    split
    next hmk => exact hmk.symm
    next hmk =>
      have hdata : (String.mk (collapseWs (stripL (lowerL s.data)))).data =
          collapseWs (stripL (lowerL s.data)) := rfl
      rw [hdata, lowerL_normalized, stripL_collapseWs_stripL, collapseWs_idem]

/-! ## Zone-substring lemmas (zones.py)

Each zone returned by `segment_ocr_text` is obtained from the input only
by `drop`/`take` slicing and stripping, hence is a contiguous substring
(infix) of the input. -/

theorem stripL_subtext (l : List Char) : stripL l <:+: l :=
  ((List.rdropWhile_prefix _ _).isInfix).trans ((List.dropWhile_suffix _).isInfix)

theorem cutEndMarkers_subtext : ∀ (ms : List String) (z : List Char), cutEndMarkers ms z <:+: z
  | [], z => List.infix_refl z
  | m :: ms, z => by
    rw [cutEndMarkers]
    cases findSub (lowerL z) m.data with
    | some p =>
      by_cases h : 50 < p
      · simp only [h, if_true]
        exact (stripL_subtext _).trans (List.take_prefix _ _).isInfix
      · simp only [h, if_false]
        exact cutEndMarkers_subtext ms z
    | none => exact cutEndMarkers_subtext ms z

theorem extractAdvisory_subtext (text textLower : List Char) :
    extractAdvisory text textLower <:+: text := by
  rw [extractAdvisory]
  cases ALLERGEN_PATTERNS.findSome? (fun r => research r textLower) with
  | some sl =>
    show (match ((text.drop sl.1).drop sl.2).findIdx? (fun c => c = '.' || c = '\n') with
          | some q => (text.drop sl.1).take (sl.2 + q + 1)
          | none => (text.drop sl.1).take 200) <:+: text
    cases ((text.drop sl.1).drop sl.2).findIdx? (fun c => c = '.' || c = '\n') with
    | some q =>
      exact ((List.take_prefix _ _).isInfix).trans (List.drop_suffix _ _).isInfix
    | none =>
      exact ((List.take_prefix _ _).isInfix).trans (List.drop_suffix _ _).isInfix
  | none => exact List.nil_infix

theorem string_data_mk (l : List Char) : (String.mk l).data = l := rfl

theorem segmentZonePair_fst_subtext (text textLower : List Char) :
    (segmentZonePair text textLower).1 <:+: text := by
  rw [segmentZonePair]
  cases headerMinPos textLower with
  | some p => exact (cutEndMarkers_subtext _ _).trans (List.drop_suffix _ _).isInfix
  | none => exact List.infix_refl _

theorem segment_zones_infix (s : String) :
    (segment_ocr_text s).ingredient_zone.data <:+: s.data ∧
    (segment_ocr_text s).allergen_advisory_zone.data <:+: s.data := by
  rw [segment_ocr_text]
  split
  next => constructor <;> exact List.nil_infix
  next =>
    constructor
    · exact (((stripL_subtext _).trans (segmentZonePair_fst_subtext _ _)).trans (stripL_subtext _))
    · exact (((stripL_subtext _).trans (extractAdvisory_subtext _ _)).trans (stripL_subtext _))

/-! ## Parse-status lemmas (zones.py) -/

theorem segmentZonePair_snd (text textLower : List Char) :
    (segmentZonePair text textLower).2 = "VERIFIED" ∨
    (segmentZonePair text textLower).2 = "UNVERIFIED" := by
  rw [segmentZonePair]
  cases headerMinPos textLower with
  | some p => left; rfl
  | none => right; rfl

theorem segmentZonePair_snd_of_isSome (text textLower : List Char)
    (h : (headerMinPos textLower).isSome) : (segmentZonePair text textLower).2 = "VERIFIED" := by
  rw [segmentZonePair]
  cases hh : headerMinPos textLower with
  | some p => rfl
  | none => rw [hh] at h; simp at h

set_option maxHeartbeats 1000000 in
theorem segment_parse_status_mem (s : String) :
    (segment_ocr_text s).parse_status ∈
      (["VERIFIED", "UNVERIFIED", "NO_INGREDIENTS"] : List String) := by
  rw [segment_ocr_text]
  split
  next => simp
  next =>
    show (if ((stripL (segmentZonePair (stripL s.data) (lowerL (stripL s.data))).1).length < 10)
          then "NO_INGREDIENTS"
          else (segmentZonePair (stripL s.data) (lowerL (stripL s.data))).2) ∈ _
    split
    next => simp
    next =>
      rcases segmentZonePair_snd (stripL s.data) (lowerL (stripL s.data)) with h | h <;>
        rw [h] <;> simp

/-! ## Claim C5 -/

set_option maxHeartbeats 8000000 in
/-- C5 (counterexample): the claim says the parse status always lies in
{OK, UNVERIFIED, NO_INGREDIENTS}; on the input `"ingredients: water, sugar"`
the code returns `"VERIFIED"`, which is outside that set. -/
theorem segment_parse_status_outside_spec_domain :
    ¬ ((segment_ocr_text "ingredients: water, sugar").parse_status ∈
        (["OK", "UNVERIFIED", "NO_INGREDIENTS"] : List String)) := by
  decide

set_option maxHeartbeats 4000000 in
/-- C5 (amended): the parse status of `segment_ocr_text` always lies in
{VERIFIED, UNVERIFIED, NO_INGREDIENTS}; and for a non-degenerate input in
which an ingredient-section marker is found, a returned ingredient zone of
at least 10 characters yields status VERIFIED while a shorter one yields
NO_INGREDIENTS. -/
theorem segment_parse_status_domain (s : String) :
    (segment_ocr_text s).parse_status ∈
      (["VERIFIED", "UNVERIFIED", "NO_INGREDIENTS"] : List String) ∧
    (¬ (s = "" ∨ (stripL s.data).length < 5) →
      (headerMinPos (lowerL (stripL s.data))).isSome →
      ((10 ≤ (segment_ocr_text s).ingredient_zone.length →
          (segment_ocr_text s).parse_status = "VERIFIED") ∧
       ((segment_ocr_text s).ingredient_zone.length < 10 →
          (segment_ocr_text s).parse_status = "NO_INGREDIENTS"))) := by
  constructor
  · exact segment_parse_status_mem s
  · intro hguard hsome
    have hcond : ¬ ((decide (s = "") || decide ((stripL s.data).length < 5)) = true) := by
      push_neg at hguard
      simp [hguard.1, hguard.2]
    have hEq : segment_ocr_text s =
        ⟨String.mk (stripL (segmentZonePair (stripL s.data) (lowerL (stripL s.data))).1),
         String.mk (stripL (extractAdvisory (stripL s.data) (lowerL (stripL s.data)))),
         detect_language (String.mk (stripL s.data)),
         if (stripL (segmentZonePair (stripL s.data) (lowerL (stripL s.data))).1).length < 10
         then "NO_INGREDIENTS"
         else (segmentZonePair (stripL s.data) (lowerL (stripL s.data))).2⟩ := by
      rw [segment_ocr_text, if_neg hcond]
    have hsnd := segmentZonePair_snd_of_isSome (stripL s.data) (lowerL (stripL s.data)) hsome
    constructor
    · intro hlen
      rw [hEq] at hlen ⊢
      have hlen' : 10 ≤ (stripL (segmentZonePair (stripL s.data) (lowerL (stripL s.data))).1).length :=
        hlen
      show (if (stripL (segmentZonePair (stripL s.data) (lowerL (stripL s.data))).1).length < 10
            then "NO_INGREDIENTS"
            else (segmentZonePair (stripL s.data) (lowerL (stripL s.data))).2) = "VERIFIED"
      rw [if_neg (Nat.not_lt.mpr hlen'), hsnd]
    · intro hlen
      rw [hEq] at hlen ⊢
      have hlen' : (stripL (segmentZonePair (stripL s.data) (lowerL (stripL s.data))).1).length < 10 :=
        hlen
      show (if (stripL (segmentZonePair (stripL s.data) (lowerL (stripL s.data))).1).length < 10
            then "NO_INGREDIENTS"
            else (segmentZonePair (stripL s.data) (lowerL (stripL s.data))).2) = "NO_INGREDIENTS"
      rw [if_pos hlen']

/-- C5 (witness): on `"ingredients: water, sugar"` a marker is found, the
zone is long enough, and the status is VERIFIED. -/
theorem segment_parse_status_domain_witness :
    (segment_ocr_text "ingredients: water, sugar").parse_status = "VERIFIED" :=
  (((segment_parse_status_domain "ingredients: water, sugar").2
    (by decide) (by decide)).1 (by decide))

/-! ## Claim C6 -/

/-- The claim's ordered-non-overlap notion for the two zones that
`segment_ocr_text` returns: each is a slice of the input, the first ends
no later than the second begins, and both lie inside the input. -/
def inOrderDisjointZones (full a b : String) : Prop :=
  ∃ i j : Nat,
    a.data = (full.data.drop i).take a.data.length ∧
    b.data = (full.data.drop j).take b.data.length ∧
    i + a.data.length ≤ j ∧ j + b.data.length ≤ full.data.length

set_option maxHeartbeats 8000000 in
/-- C6 (counterexample): on `"ingredients: milk traces of nuts"` the
ingredient zone is the whole input (32 characters) and the advisory zone is
`"traces of nuts"` (14 characters), so the two returned zones cannot be
placed as ordered non-overlapping substrings of the input. -/
theorem segment_zones_overlap_counterexample :
    ¬ inOrderDisjointZones "ingredients: milk traces of nuts"
        (segment_ocr_text "ingredients: milk traces of nuts").ingredient_zone
        (segment_ocr_text "ingredients: milk traces of nuts").allergen_advisory_zone := by
  intro ⟨i, j, _, _, h3, h4⟩
  have hz : (segment_ocr_text "ingredients: milk traces of nuts").ingredient_zone.data.length = 32 := by
    decide
  have ha : (segment_ocr_text "ingredients: milk traces of nuts").allergen_advisory_zone.data.length = 14 := by
    decide
  have hf : ("ingredients: milk traces of nuts" : String).data.length = 32 := by decide
  rw [hz] at h3
  rw [ha, hf] at h4
  omega

/-! ## Claim C1 -/

set_option maxHeartbeats 8000000 in
/-- C1 (code evaluation at the failing input): with original text
"lécithine de tournesol" and normalized text "soy lecithin" the combined
lecithin resolver returns source "soy": the accented French original
matches none of the lecithin patterns (they spell "lecithine" without the
accent), so the mistranslated normalized text decides the source, instead
of the "sunflower" the specification requires. -/
theorem lecithin_combined_accented_french_returns_soy :
    (detect_lecithin_source_combined "lécithine de tournesol" "soy lecithin").source = some "soy" ∧
    (detect_lecithin_source "lécithine de tournesol").is_lecithin = false ∧
    (detect_lecithin_source_combined "lecithine de tournesol" "soy lecithin").source =
      some "sunflower" := by
  refine ⟨by decide, by decide, by decide⟩

/-! ## Claim C4 -/

set_option maxHeartbeats 16000000 in
/-- C4: the unqualified ingredient "gelatin" evaluates to
NOT_HALAL_UNVERIFIED under halal strict mode (the internally computed
MUSHBOOH — visible with `strict_mode = False` — is remapped), and to
REQUIRES_CERTIFICATION under kosher. -/
theorem gelatin_unqualified_statuses :
    (evaluate_halal_strict (some "gelatin") true none).status = "NOT_HALAL_UNVERIFIED" ∧
    (evaluate_halal_strict (some "gelatin") false none).status = "MUSHBOOH" ∧
    (evaluate_kosher_strict (some "gelatin")).status = "REQUIRES_CERTIFICATION" := by
  refine ⟨by decide, by decide, by decide⟩

/-! ## Claim C10 -/

set_option maxHeartbeats 8000000 in
/-- C10: the empty ingredient text (and `None`, which the source coerces to
the empty string) receives the permissive default from every diet engine:
halal HALAL_CONFIRMED/MEDIUM with reason code `no_haram_indicators_detected`,
kosher KOSHER_CONFIRMED/MEDIUM, and vegan/vegetarian/pescetarian
COMPLIANT/HIGH. -/
theorem empty_ingredient_defaults :
    (evaluate_halal_strict (some "") true none).status = "HALAL_CONFIRMED" ∧
    (evaluate_halal_strict (some "") true none).confidence = "MEDIUM" ∧
    (evaluate_halal_strict (some "") true none).reason_codes = ["no_haram_indicators_detected"] ∧
    evaluate_halal_strict none true none = evaluate_halal_strict (some "") true none ∧
    (evaluate_kosher_strict (some "")).status = "KOSHER_CONFIRMED" ∧
    (evaluate_kosher_strict (some "")).confidence = "MEDIUM" ∧
    evaluate_kosher_strict none = evaluate_kosher_strict (some "") ∧
    (evaluate_vegan (some "")).status = "COMPLIANT" ∧
    (evaluate_vegan (some "")).confidence = "HIGH" ∧
    evaluate_vegan none = evaluate_vegan (some "") ∧
    (evaluate_vegetarian (some "")).status = "COMPLIANT" ∧
    (evaluate_vegetarian (some "")).confidence = "HIGH" ∧
    evaluate_vegetarian none = evaluate_vegetarian (some "") ∧
    (evaluate_pescetarian (some "")).status = "COMPLIANT" ∧
    (evaluate_pescetarian (some "")).confidence = "HIGH" ∧
    evaluate_pescetarian none = evaluate_pescetarian (some "") := by
  decide

/-! ## Claim C7 -/

set_option maxHeartbeats 8000000 in
/-- C7 (counterexample): the claim says an unqualified "lecithin" with
unspecified source is conservatively flagged as possible soy; the code
returns no flag at all. -/
theorem check_allergy_unqualified_lecithin_not_flagged :
    check_allergy "lecithin" ["soy"] = none := by
  decide

set_option maxHeartbeats 8000000 in
/-- C7 (amended): with the user allergen list ["soy"], "sunflower lecithin"
is not flagged and "soy lecithin" is flagged as Soy; the unqualified
"lecithin" is also not flagged (no conservative possible-soy default is
implemented in `check_allergy`). -/
theorem check_allergy_lecithin_source_awareness :
    check_allergy "sunflower lecithin" ["soy"] = none ∧
    check_allergy "soy lecithin" ["soy"] = some "Soy" ∧
    check_allergy "lecithin" ["soy"] = none := by
  refine ⟨by decide, by decide, by decide⟩

/-! ## Claim C3 -/

/-- C3: for every diet, one dispositive-fail ingredient result forces the
product-level aggregate to that failing status: HARAM for halal,
NOT_KOSHER for kosher, NOT_COMPLIANT for vegan/vegetarian/pescetarian
(which share `aggregate_diet_results`), regardless of the other results. -/
theorem aggregate_dispositive_fail_dominates :
    (∀ (rs : List IngredientResult) (strictMode : Bool),
      (∃ r ∈ rs, r.status = "HARAM") →
      (aggregate_product_halal rs strictMode).status = "HARAM") ∧
    (∀ rs : List IngredientResult,
      (∃ r ∈ rs, r.status = "NOT_KOSHER") →
      (aggregate_product_kosher rs).status = "NOT_KOSHER") ∧
    (∀ (rs : List IngredientResult) (dietName : String),
      (∃ r ∈ rs, r.status = "NOT_COMPLIANT") →
      (aggregate_diet_results rs dietName).status = "NOT_COMPLIANT") := by
  refine ⟨?_, ?_, ?_⟩
  · intro rs strictMode h
    have hne : rs.filter (fun r => r.status == HARAM) ≠ [] := by
      obtain ⟨r, hr, hs⟩ := h
      intro hnil
      rw [List.filter_eq_nil_iff] at hnil
      exact hnil r hr (by simp [hs, HARAM])
    simp [aggregate_product_halal, hne]
  · intro rs h
    have hne : rs.filter (fun r => r.status == NOT_KOSHER) ≠ [] := by
      obtain ⟨r, hr, hs⟩ := h
      intro hnil
      rw [List.filter_eq_nil_iff] at hnil
      exact hnil r hr (by simp [hs, NOT_KOSHER])
    simp [aggregate_product_kosher, hne, NOT_KOSHER, h]
  · intro rs dietName h
    have hne : rs.filter (fun r => r.status == NOT_COMPLIANT) ≠ [] := by
      obtain ⟨r, hr, hs⟩ := h
      intro hnil
      rw [List.filter_eq_nil_iff] at hnil
      exact hnil r hr (by simp [hs, NOT_COMPLIANT])
    simp [aggregate_diet_results, hne, NOT_COMPLIANT, h]

/-- C3 (witness): concrete one-failing-ingredient products for each diet. -/
theorem aggregate_dispositive_fail_dominates_witness :
    (aggregate_product_halal
      [⟨"sugar", "HALAL_CONFIRMED", "HIGH", [], []⟩, ⟨"pork", "HARAM", "HIGH", ["pork_haram"], []⟩]
      true).status = "HARAM" ∧
    (aggregate_product_kosher
      [⟨"sugar", "KOSHER_CONFIRMED", "HIGH", [], []⟩,
       ⟨"shrimp", "NOT_KOSHER", "HIGH", ["forbidden_seafood"], []⟩]).status = "NOT_KOSHER" ∧
    (aggregate_diet_results
      [⟨"sugar", "COMPLIANT", "HIGH", [], []⟩,
       ⟨"beef", "NOT_COMPLIANT", "HIGH", ["contains_meat"], []⟩] "vegan").status =
      "NOT_COMPLIANT" :=
  ⟨aggregate_dispositive_fail_dominates.1 _ true
     ⟨⟨"pork", "HARAM", "HIGH", ["pork_haram"], []⟩, by simp, rfl⟩,
   aggregate_dispositive_fail_dominates.2.1 _
     ⟨⟨"shrimp", "NOT_KOSHER", "HIGH", ["forbidden_seafood"], []⟩, by simp, rfl⟩,
   aggregate_dispositive_fail_dominates.2.2 _ "vegan"
     ⟨⟨"beef", "NOT_COMPLIANT", "HIGH", ["contains_meat"], []⟩, by simp, rfl⟩⟩

/-! ## Claim C8 -/

/-- C8: if no individual kosher result is NOT_KOSHER but the per-ingredient
tag extraction marks some result dairy and some result meat, the kosher
product aggregate is NOT_KOSHER with HIGH confidence. -/
theorem kosher_meat_dairy_cross_product_fails
    (rs : List IngredientResult)
    (hnk : ∀ r ∈ rs, r.status ≠ "NOT_KOSHER")
    (hdairy : ∃ r ∈ rs, "dairy" ∈ kosher_tags r)
    (hmeat : ∃ r ∈ rs, "meat" ∈ kosher_tags r) :
    (aggregate_product_kosher rs).status = "NOT_KOSHER" ∧
    (aggregate_product_kosher rs).confidence = "HIGH" := by
  have h1 : ¬∃ x ∈ rs, x.status = "NOT_KOSHER" := by
    rintro ⟨x, hx, hs⟩
    exact hnk x hx hs
  constructor <;>
    simp [aggregate_product_kosher, NOT_KOSHER, CONF_HIGH, h1, hdairy, hmeat]

set_option maxHeartbeats 8000000 in
/-- C8 (witness): a dairy ingredient ("milk") and a certified meat
ingredient ("beef, kosher certified") — neither NOT_KOSHER on its own —
aggregate to NOT_KOSHER/HIGH. -/
theorem kosher_meat_dairy_cross_product_fails_witness :
    (aggregate_product_kosher
      [evaluate_kosher_strict (some "milk"),
       evaluate_kosher_strict (some "beef, kosher certified")]).status = "NOT_KOSHER" ∧
    (aggregate_product_kosher
      [evaluate_kosher_strict (some "milk"),
       evaluate_kosher_strict (some "beef, kosher certified")]).confidence = "HIGH" :=
  kosher_meat_dairy_cross_product_fails _ (by decide)
    ⟨evaluate_kosher_strict (some "milk"), by simp, by decide⟩
    ⟨evaluate_kosher_strict (some "beef, kosher certified"), by simp [List.mem_cons], by decide⟩

/-! ## Result-shape lemmas for the classification engines -/

theorem halalEnumberLoop_error_shape (ingRaw : String) (es : List String) (acc : HalalAcc)
    (r : IngredientResult) (h : halalEnumberLoop ingRaw es acc = .error r) :
    r.status ∈ (["HALAL_CONFIRMED", "HARAM", "MUSHBOOH", "NOT_HALAL_UNVERIFIED"] : List String) ∧
    r.confidence ∈ (["HIGH", "MEDIUM", "LOW"] : List String) := by
  induction es generalizing acc with
  | nil => simp [halalEnumberLoop] at h
  | cons e es ih =>
    simp only [halalEnumberLoop] at h
    repeat' split at h
    all_goals first
      | (cases h; simp [HARAM, CONF_HIGH]; done)
      | (exact ih _ h)
      | cases h

theorem halalAlcoholStep_error_shape (ingRaw ing : String) (sc : Bool) (acc : HalalAcc)
    (r : IngredientResult) (h : halalAlcoholStep ingRaw ing sc acc = .error r) :
    r.status ∈ (["HALAL_CONFIRMED", "HARAM", "MUSHBOOH", "NOT_HALAL_UNVERIFIED"] : List String) ∧
    r.confidence ∈ (["HIGH", "MEDIUM", "LOW"] : List String) := by
  simp only [halalAlcoholStep] at h
  repeat' split at h
  all_goals first
    | (cases h; simp [HARAM, CONF_HIGH]; done)
    | cases h

theorem halalGelatinStep_error_shape (ingRaw ing : String) (acc : HalalAcc)
    (r : IngredientResult) (h : halalGelatinStep ingRaw ing acc = .error r) :
    r.status ∈ (["HALAL_CONFIRMED", "HARAM", "MUSHBOOH", "NOT_HALAL_UNVERIFIED"] : List String) ∧
    r.confidence ∈ (["HIGH", "MEDIUM", "LOW"] : List String) := by
  simp only [halalGelatinStep] at h
  repeat' split at h
  all_goals first
    | (cases h; simp [HARAM, HALAL_CONFIRMED, CONF_HIGH]; done)
    | cases h

theorem halalLecithinStep_error_shape (ingRaw ing orig : String) (sc : Bool) (acc : HalalAcc)
    (r : IngredientResult) (h : halalLecithinStep ingRaw ing orig sc acc = .error r) :
    r.status ∈ (["HALAL_CONFIRMED", "HARAM", "MUSHBOOH", "NOT_HALAL_UNVERIFIED"] : List String) ∧
    r.confidence ∈ (["HIGH", "MEDIUM", "LOW"] : List String) := by
  simp only [halalLecithinStep] at h
  repeat' split at h
  all_goals first
    | (cases h; simp [HALAL_CONFIRMED, NOT_HALAL_UNVERIFIED, CONF_HIGH, CONF_MED]; done)
    | cases h

theorem halalScan_error_shape (ingRaw ing orig : String) (sc : Bool) (r : IngredientResult)
    (h : halalScan ingRaw ing orig sc = .error r) :
    r.status ∈ (["HALAL_CONFIRMED", "HARAM", "MUSHBOOH", "NOT_HALAL_UNVERIFIED"] : List String) ∧
    r.confidence ∈ (["HIGH", "MEDIUM", "LOW"] : List String) := by
  simp only [halalScan] at h
  repeat' split at h
  all_goals first
    | (cases h; simp [HARAM, CONF_HIGH]; done)
    | (cases h; rename_i heq; exact halalEnumberLoop_error_shape _ _ _ _ heq)
    | (cases h; rename_i heq; exact halalAlcoholStep_error_shape _ _ _ _ _ heq)
    | (cases h; rename_i heq; exact halalGelatinStep_error_shape _ _ _ _ heq)
    | (cases h; rename_i heq; exact halalLecithinStep_error_shape _ _ _ _ _ _ heq)
    | cases h

theorem halalFinalize_shape (ingRaw ing : String) (acc : HalalAcc) (sc wc sm : Bool) :
    (halalFinalize ingRaw ing acc sc wc sm).status ∈
      (["HALAL_CONFIRMED", "HARAM", "MUSHBOOH", "NOT_HALAL_UNVERIFIED"] : List String) ∧
    (halalFinalize ingRaw ing acc sc wc sm).confidence ∈ (["HIGH", "MEDIUM", "LOW"] : List String) := by
  constructor
  all_goals
    simp only [halalFinalize]
    repeat' split
    all_goals
      simp [HARAM, HALAL_CONFIRMED, MUSHBOOH, NOT_HALAL_UNVERIFIED, CONF_HIGH, CONF_MED, CONF_LOW]

theorem evaluate_halal_shape (t : Option String) (sm : Bool) (o : Option String) :
    (evaluate_halal_strict t sm o).status ∈
      (["HALAL_CONFIRMED", "HARAM", "MUSHBOOH", "NOT_HALAL_UNVERIFIED"] : List String) ∧
    (evaluate_halal_strict t sm o).confidence ∈ (["HIGH", "MEDIUM", "LOW"] : List String) := by
  simp only [evaluate_halal_strict]
  cases hh : halalScanOf t o with
  | error r =>
    simp only [halalScanOf] at hh
    exact halalScan_error_shape _ _ _ _ _ hh
  | ok acc => exact halalFinalize_shape _ _ _ _ _ _

theorem kosherSourceLoop_error_shape (ingRaw ing : String) (hasCert : Bool)
    (cats : List (String × KosherSourceDep)) (acc : List String × List String)
    (r : IngredientResult) (h : kosherSourceLoop ingRaw ing hasCert cats acc = .error r) :
    r.status ∈ (["KOSHER_CONFIRMED", "NOT_KOSHER", "REQUIRES_CERTIFICATION"] : List String) ∧
    r.confidence ∈ (["HIGH", "MEDIUM", "LOW"] : List String) := by
  induction cats generalizing acc with
  | nil => simp [kosherSourceLoop] at h
  | cons c cs ih =>
    obtain ⟨ingType, config⟩ := c
    simp only [kosherSourceLoop] at h
    repeat' split at h
    all_goals first
      | (cases h; simp [NOT_KOSHER, REQUIRES_CERTIFICATION, CONF_HIGH, CONF_LOW]; done)
      | (exact ih _ h)
      | cases h

theorem kosherFinalize_shape (ingRaw ing : String) (hasCert : Bool)
    (acc1 : List String × List String) :
    (kosherFinalize ingRaw ing hasCert acc1).status ∈
      (["KOSHER_CONFIRMED", "NOT_KOSHER", "REQUIRES_CERTIFICATION"] : List String) ∧
    (kosherFinalize ingRaw ing hasCert acc1).confidence ∈
      (["HIGH", "MEDIUM", "LOW"] : List String) := by
  constructor
  all_goals
    simp only [kosherFinalize]
    repeat' split
    all_goals
      simp [KOSHER_CONFIRMED, NOT_KOSHER, REQUIRES_CERTIFICATION, CONF_HIGH, CONF_MED, CONF_LOW]

theorem evaluate_kosher_shape (t : Option String) :
    (evaluate_kosher_strict t).status ∈
      (["KOSHER_CONFIRMED", "NOT_KOSHER", "REQUIRES_CERTIFICATION"] : List String) ∧
    (evaluate_kosher_strict t).confidence ∈ (["HIGH", "MEDIUM", "LOW"] : List String) := by
  constructor
  all_goals
    simp only [evaluate_kosher_strict]
    repeat' split
    all_goals first
      | (simp [KOSHER_CONFIRMED, NOT_KOSHER, REQUIRES_CERTIFICATION, CONF_HIGH, CONF_MED, CONF_LOW];
         done)
      | (rename_i heq; exact (kosherSourceLoop_error_shape _ _ _ _ _ _ heq).1)
      | (rename_i heq; exact (kosherSourceLoop_error_shape _ _ _ _ _ _ heq).2)
      | (exact (kosherFinalize_shape _ _ _ _).1)
      | (exact (kosherFinalize_shape _ _ _ _).2)

theorem evaluate_vegan_shape (t : Option String) :
    (evaluate_vegan t).status ∈ (["COMPLIANT", "NOT_COMPLIANT", "UNCERTAIN"] : List String) ∧
    (evaluate_vegan t).confidence ∈ (["HIGH", "MEDIUM", "LOW"] : List String) := by
  constructor
  all_goals
    simp only [evaluate_vegan]
    repeat' split
    all_goals simp [COMPLIANT, NOT_COMPLIANT, UNCERTAIN, CONF_HIGH, CONF_LOW]

theorem evaluate_vegetarian_shape (t : Option String) :
    (evaluate_vegetarian t).status ∈ (["COMPLIANT", "NOT_COMPLIANT", "UNCERTAIN"] : List String) ∧
    (evaluate_vegetarian t).confidence ∈ (["HIGH", "MEDIUM", "LOW"] : List String) := by
  constructor
  all_goals
    simp only [evaluate_vegetarian]
    repeat' split
    all_goals simp [COMPLIANT, NOT_COMPLIANT, UNCERTAIN, CONF_HIGH, CONF_LOW]

theorem evaluate_pescetarian_shape (t : Option String) :
    (evaluate_pescetarian t).status ∈ (["COMPLIANT", "NOT_COMPLIANT", "UNCERTAIN"] : List String) ∧
    (evaluate_pescetarian t).confidence ∈ (["HIGH", "MEDIUM", "LOW"] : List String) := by
  constructor
  all_goals
    simp only [evaluate_pescetarian]
    repeat' split
    all_goals simp [COMPLIANT, NOT_COMPLIANT, UNCERTAIN, CONF_HIGH, CONF_LOW]

/-! ## Claim C2 -/

/-- C2: certification never overrides a dispositive haram match but always
overrides provisional signals. Part 1: if the ingredient text (under the
engine normalization) matches an always-haram animal-derivative term, the
halal status is HARAM for every strict-mode flag and original text,
certification signals in the text included. Part 2: if a strong
certification (strength HIGH or MEDIUM) is detected and the scan phase
produces only provisional signals (no dispositive early return), the
status is HALAL_CONFIRMED with HIGH confidence. -/
theorem halal_certification_precedence :
    (∀ (ing : String) (sm : Bool) (o : Option String),
      ANIMAL_DERIVATIVES_CONFIG.always_haram.any
        (fun cd => cd.2.terms.any (fun t => word_in_text (normalize_text ing) t)) = true →
      (evaluate_halal_strict (some ing) sm o).status = "HARAM") ∧
    (∀ (ing : String) (sm : Bool) (o : Option String),
      ((halalCertOf (some ing)).strength = "HIGH" ∨ (halalCertOf (some ing)).strength = "MEDIUM") →
      (halalScanOf (some ing) o).isOk = true →
      (evaluate_halal_strict (some ing) sm o).status = "HALAL_CONFIRMED" ∧
      (evaluate_halal_strict (some ing) sm o).confidence = "HIGH") := by
  constructor
  · intro ing sm o h
    have hidem : normalize_text (normalize_text ing) = normalize_text ing := normalize_text_idem ing
    have hsome : (ANIMAL_DERIVATIVES_CONFIG.always_haram.find?
        (fun cd => cd.2.terms.any
          (fun t => word_in_text (normalize_text (normalize_text ing)) t))).isSome := by
      rw [List.find?_isSome, hidem]
      exact List.any_eq_true.mp h
    obtain ⟨cd, hfind⟩ := Option.isSome_iff_exists.mp hsome
    have hstat : (check_animal_derivative_status (normalize_text ing)).status = some "HARAM" := by
      simp only [check_animal_derivative_status, hfind]
    simp only [evaluate_halal_strict, halalScanOf, halalScan, Option.getD_some]
    rw [if_pos hstat]
    rfl
  · intro ing sm o hcert hok
    have hb : (decide ((halalCertOf (some ing)).strength = "HIGH" ∨
        (halalCertOf (some ing)).strength = "MEDIUM")) = true := decide_eq_true hcert
    constructor
    all_goals
      simp only [evaluate_halal_strict, Option.getD_some]
      cases hh : halalScanOf (some ing) o with
      | error r => rw [hh] at hok; simp [Except.isOk, Except.toBool] at hok
      | ok acc => simp [halalFinalize, hb, HALAL_CONFIRMED, MUSHBOOH, CONF_HIGH]

set_option maxHeartbeats 32000000 in
/-- C2 (witness): "pork, halal certified" matches an always-haram term and
returns HARAM despite the certification phrase; "gelatin, JAKIM certified"
carries a strong certification, its scan has no dispositive return, and it
resolves to HALAL_CONFIRMED with HIGH confidence. -/
theorem halal_certification_precedence_witness :
    (ANIMAL_DERIVATIVES_CONFIG.always_haram.any
        (fun cd => cd.2.terms.any
          (fun t => word_in_text (normalize_text "pork, halal certified") t)) = true ∧
      (evaluate_halal_strict (some "pork, halal certified") true none).status = "HARAM") ∧
    (((halalCertOf (some "gelatin, JAKIM certified")).strength = "HIGH" ∨
        (halalCertOf (some "gelatin, JAKIM certified")).strength = "MEDIUM") ∧
      (halalScanOf (some "gelatin, JAKIM certified") none).isOk = true ∧
      (evaluate_halal_strict (some "gelatin, JAKIM certified") true none).status =
        "HALAL_CONFIRMED" ∧
      (evaluate_halal_strict (some "gelatin, JAKIM certified") true none).confidence = "HIGH") :=
  ⟨⟨by decide, halal_certification_precedence.1 "pork, halal certified" true none (by decide)⟩,
   ⟨by decide, by decide,
    (halal_certification_precedence.2 "gelatin, JAKIM certified" true none
      (by decide) (by decide)).1,
    (halal_certification_precedence.2 "gelatin, JAKIM certified" true none
      (by decide) (by decide)).2⟩⟩

/-! ## Claim C9 -/

/-- C9: every part of the classification core is a total function into
well-formed results: for every input string (empty, too short or without a
marker included) segmentation returns one of the three parse statuses
VERIFIED / UNVERIFIED / NO_INGREDIENTS, every per-ingredient diet engine
returns a status and a confidence drawn from its fixed vocabulary, and
every product aggregator does the same; input-shape failures surface only
as the parse-status values, never as a missing result. -/
theorem classification_core_total :
    (∀ s : String, (segment_ocr_text s).parse_status ∈
      (["VERIFIED", "UNVERIFIED", "NO_INGREDIENTS"] : List String)) ∧
    (∀ (t : Option String) (sm : Bool) (o : Option String),
      (evaluate_halal_strict t sm o).status ∈
        (["HALAL_CONFIRMED", "HARAM", "MUSHBOOH", "NOT_HALAL_UNVERIFIED"] : List String) ∧
      (evaluate_halal_strict t sm o).confidence ∈ (["HIGH", "MEDIUM", "LOW"] : List String)) ∧
    (∀ t : Option String,
      (evaluate_kosher_strict t).status ∈
        (["KOSHER_CONFIRMED", "NOT_KOSHER", "REQUIRES_CERTIFICATION"] : List String) ∧
      (evaluate_kosher_strict t).confidence ∈ (["HIGH", "MEDIUM", "LOW"] : List String)) ∧
    (∀ t : Option String,
      (evaluate_vegan t).status ∈ (["COMPLIANT", "NOT_COMPLIANT", "UNCERTAIN"] : List String) ∧
      (evaluate_vegan t).confidence ∈ (["HIGH", "MEDIUM", "LOW"] : List String)) ∧
    (∀ t : Option String,
      (evaluate_vegetarian t).status ∈
        (["COMPLIANT", "NOT_COMPLIANT", "UNCERTAIN"] : List String) ∧
      (evaluate_vegetarian t).confidence ∈ (["HIGH", "MEDIUM", "LOW"] : List String)) ∧
    (∀ t : Option String,
      (evaluate_pescetarian t).status ∈
        (["COMPLIANT", "NOT_COMPLIANT", "UNCERTAIN"] : List String) ∧
      (evaluate_pescetarian t).confidence ∈ (["HIGH", "MEDIUM", "LOW"] : List String)) ∧
    (∀ (rs : List IngredientResult) (sm : Bool),
      (aggregate_product_halal rs sm).status ∈
        (["HARAM", "NOT_HALAL_UNVERIFIED", "HALAL"] : List String) ∧
      (aggregate_product_halal rs sm).confidence ∈ (["HIGH", "MEDIUM", "LOW"] : List String)) ∧
    (∀ rs : List IngredientResult,
      (aggregate_product_kosher rs).status ∈
        (["KOSHER_CONFIRMED", "NOT_KOSHER", "REQUIRES_CERTIFICATION"] : List String) ∧
      (aggregate_product_kosher rs).confidence ∈ (["HIGH", "MEDIUM", "LOW"] : List String)) ∧
    (∀ (rs : List IngredientResult) (d : String),
      (aggregate_diet_results rs d).status ∈
        (["COMPLIANT", "NOT_COMPLIANT", "UNCERTAIN"] : List String) ∧
      (aggregate_diet_results rs d).confidence ∈ (["HIGH", "MEDIUM", "LOW"] : List String)) := by
  refine ⟨segment_parse_status_mem, evaluate_halal_shape, evaluate_kosher_shape,
    evaluate_vegan_shape, evaluate_vegetarian_shape, evaluate_pescetarian_shape, ?_, ?_, ?_⟩
  · intro rs sm
    constructor
    all_goals
      simp only [aggregate_product_halal]
      repeat' split
      all_goals simp [CONF_HIGH, CONF_MED, CONF_LOW]
  · intro rs
    constructor
    all_goals
      simp only [aggregate_product_kosher]
      repeat' split
      all_goals
        simp [NOT_KOSHER, REQUIRES_CERTIFICATION, KOSHER_CONFIRMED, CONF_HIGH, CONF_MED, CONF_LOW]
  · intro rs d
    constructor
    all_goals
      simp only [aggregate_diet_results]
      repeat' split
      all_goals simp [COMPLIANT, NOT_COMPLIANT, UNCERTAIN, CONF_HIGH, CONF_LOW]

end PureMark
